import Mathlib

/-!
Verification development for the botfit nutrition-coaching bot.

Shallow embedding of the dialog-state machine, the meal-resolution
pipeline, the plan-generation quality gate, the targets calculator and
the background scheduler triggers, translated from the Python sources
(`src/bot.py`, `src/food_service.py`, `src/nutrition.py`,
`src/repositories.py`).  Python floats are modelled as exact rationals
(ℚ), Python ints as ℤ/ℕ, fallible values as `Option`.
-/

namespace Botfit

/-- Python `round()` (banker's rounding, round-half-to-even), on a
rational modelling a Python float. -/
def pyRound (q : ℚ) : ℤ :=
  let f : ℤ := ⌊q⌋
  let r : ℚ := q - f
  if r < 1/2 then f
  else if 1/2 < r then f + 1
  else if f % 2 = 0 then f else f + 1

/-- Python `str.lower()` restricted to the character repertoire the bot
handles: ASCII letters and the Russian Cyrillic block (А-Я to а-я,
Ё to ё).  Other characters are unchanged. -/
def pyLowerChar (c : Char) : Char :=
  if c.isUpper then c.toLower
  else if 0x410 ≤ c.toNat ∧ c.toNat ≤ 0x42F then Char.ofNat (c.toNat + 0x20)
  else if c.toNat = 0x401 then Char.ofNat 0x451
  else c

/-- Python `str.lower()` on a whole string. -/
def pyLower (s : String) : String :=
  String.mk (s.toList.map pyLowerChar)

/-- Python `str.strip()`: drop leading and trailing whitespace. -/
def pyStrip (s : String) : String :=
  String.mk (((s.toList.dropWhile Char.isWhitespace).reverse.dropWhile
    Char.isWhitespace).reverse)

/-- Python `int(s)` on an all-digit string. -/
def digitsToNat (s : String) : ℕ :=
  s.toList.foldl (fun acc c => acc * 10 + (c.toNat - 48)) 0

/-- Whitespace-run collapsing, the `re.sub(r"\s+", " ", s)` part of
`_norm_text` (bot.py line 124).  The boolean argument records whether the
previous character was whitespace. -/
def collapseWsAux : Bool → List Char → List Char
  | _, [] => []
  | prevWs, c :: rest =>
    if c.isWhitespace then
      if prevWs then collapseWsAux true rest
      else ' ' :: collapseWsAux true rest
    else c :: collapseWsAux false rest

/-- `_norm_text` (bot.py line 124): `re.sub(r"\s+", " ", s.strip().lower())`. -/
def normText (s : String) : String :=
  String.mk (collapseWsAux false ((pyLower (pyStrip s)).toList))

/-- Python `str.isdigit()` for the ASCII-digit strings this flow feeds it. -/
def pyIsDigit (s : String) : Bool :=
  !s.toList.isEmpty && s.toList.all Char.isDigit

/-- Word character for the `\b` boundaries of Python's Unicode regexes,
restricted to the repertoire the bot handles (ASCII word chars plus the
Russian Cyrillic block). -/
def isWordChar (c : Char) : Bool :=
  c.isAlphanum || c = '_' || (0x410 ≤ c.toNat && c.toNat ≤ 0x44F) ||
    c.toNat = 0x401 || c.toNat = 0x451

/-- Scan for the first maximal digit run that is delimited by word
boundaries on both sides and has length 8..14 — the semantics of
`re.search(r"\b(\d{8,14})\b", t)` on the space-free text (a run longer
than 14 digits can never match because no boundary falls inside a digit
run).  `run` is the digit run being read (empty when outside a run);
`runnable` records whether the run in progress started at a word
boundary (for an empty run: whether a run starting now would). -/
def findBarcodeAux : List Char → Bool → List Char → Option (List Char)
  | run, runnable, [] =>
    if runnable && 8 ≤ run.length && run.length ≤ 14 then some run else none
  | run, runnable, c :: rest =>
    if c.isDigit then
      match run with
      | [] => findBarcodeAux [c] runnable rest
      | _ => findBarcodeAux (run ++ [c]) runnable rest
    else
      if runnable && 8 ≤ run.length && run.length ≤ 14 && !isWordChar c then some run
      else findBarcodeAux [] (!isWordChar c) rest

/-- `_maybe_barcode` (bot.py line 1335): normalize the text, delete
spaces, then search for a standalone 8-14 digit run. -/
def maybeBarcode (s : String) : Option String :=
  let t := (normText s).toList.filter (fun c => c ≠ ' ')
  (findBarcodeAux [] true t).map String.mk

/-- Substring containment, Python's `needle in hay`. -/
def subAux (needle : List Char) : List Char → Bool
  | [] => needle.isEmpty
  | c :: t => needle.isPrefixOf (c :: t) || subAux needle t

/-- Python `needle in hay` on strings. -/
def isSubstring (needle hay : String) : Bool :=
  subAux needle.toList hay.toList

/-! ## Food-resolution data model (`src/openfoodfacts.py`, `src/food_service.py`) -/

/-- `FoodCandidate` (openfoodfacts.py line 12), keeping the fields the
meal pipeline reads; per-100g macros may be missing. -/
structure FoodCandidate where
  barcode : Option String
  name : String
  brand : Option String
  kcal100g : Option ℚ
  protein100g : Option ℚ
  fat100g : Option ℚ
  carbs100g : Option ℚ
deriving DecidableEq, Repr

/-- The `per_100g` snapshot stored on a resolved item
(food_service.py line 185). -/
structure Per100 where
  kcal : ℚ
  proteinG : ℚ
  fatG : ℚ
  carbsG : ℚ
deriving DecidableEq, Repr

/-- The dict returned by `compute_item_macros` (food_service.py line 169):
grams are rounded to an int, macros are linearly scaled `per_100g * grams / 100`. -/
structure ResolvedItem where
  name : String
  brand : Option String
  barcode : Option String
  grams : ℤ
  calories : ℚ
  proteinG : ℚ
  fatG : ℚ
  carbsG : ℚ
  per100g : Per100
deriving DecidableEq, Repr

/-- `compute_item_macros` (food_service.py lines 169-191). -/
def computeItemMacros (grams : ℚ) (cand : FoodCandidate) : Option ResolvedItem :=
  if grams ≤ 0 then none
  else
    match cand.kcal100g, cand.protein100g, cand.fat100g, cand.carbs100g with
    | some k, some p, some f, some c =>
      let factor := grams / 100
      some { name := cand.name
             brand := cand.brand
             barcode := cand.barcode
             grams := pyRound grams
             calories := k * factor
             proteinG := p * factor
             fatG := f * factor
             carbsG := c * factor
             per100g := ⟨k, p, f, c⟩ }
    | _, _, _, _ => none

/-- The food-resolution oracle (`FoodService.resolve_by_barcode` /
`FoodService.search`), abstracted as pure lookup functions. -/
structure FoodOracle where
  byBarcode : String → Option FoodCandidate
  search : String → List FoodCandidate

/-! ## Meal resolution pipeline (`_build_meal_from_items`, bot.py lines 1366-1456) -/

/-- One element of the `items` list handed to `_build_meal_from_items`:
`(query, grams, optional barcode)` as extracted from the oracle JSON
(`str(it.get("query") or "")`, `float(it.get("grams") or 0)`,
`it.get("barcode") or None`). -/
structure InputItem where
  query : String
  grams : ℚ
  barcode : Option String
deriving DecidableEq, Repr

/-- An unresolved entry recorded for later disambiguation: the original
(stripped) query, the grams, and the snapshot of up to 5 candidates. -/
structure UnresolvedItem where
  query : String
  grams : ℚ
  candidates : List FoodCandidate
deriving DecidableEq, Repr

/-- Candidates usable for automatic acceptance: all four per-100g macro
fields present (bot.py lines 1387-1394). -/
def usableCandidates (cands : List FoodCandidate) : List FoodCandidate :=
  cands.filter fun c =>
    c.kcal100g.isSome && c.protein100g.isSome && c.fat100g.isSome && c.carbs100g.isSome

/-- The barcode actually used for direct resolution: bot.py lines
1377-1378 plus the truthiness test at line 1383 (`barcode or None`, then
`.strip()`, then `if barcode:`), which amounts to: present and non-empty
after stripping. -/
def effectiveBarcode (it : InputItem) : Option String :=
  it.barcode.bind fun b =>
    let s := pyStrip b
    if s = "" then none else some s

/-- How the per-item loop of `_build_meal_from_items` classifies one item. -/
inductive ItemOutcome
  | dropped
  | accepted (r : ResolvedItem)
  | unresolvedItem (u : UnresolvedItem)
deriving DecidableEq, Repr

/-- The per-item body of `_build_meal_from_items` (bot.py lines 1374-1426). -/
def resolveItem (oracle : FoodOracle) (it : InputItem) : ItemOutcome :=
  let query := pyStrip it.query
  let grams := it.grams
  if query = "" ∨ grams ≤ 0 then .dropped
  else
    match (effectiveBarcode it).bind oracle.byBarcode with
    | some cand =>
      match computeItemMacros grams cand with
      | some r => .accepted r
      | none => .unresolvedItem ⟨query, grams, []⟩
    | none =>
      let usable := usableCandidates (oracle.search query)
      match usable with
      | [c] =>
        match computeItemMacros grams c with
        | some r => .accepted r
        | none => .unresolvedItem ⟨query, grams, []⟩
      | _ => .unresolvedItem ⟨query, grams, usable.take 5⟩

/-- The aggregate totals of a finished draft (bot.py lines 1431-1437):
each field is `int(round(sum(...)))`. -/
structure MealTotals where
  totalWeightG : ℤ
  calories : ℤ
  proteinG : ℤ
  fatG : ℤ
  carbsG : ℤ
deriving DecidableEq, Repr

/-- bot.py lines 1431-1437. -/
def mealTotals (resolved : List ResolvedItem) : MealTotals :=
  { totalWeightG := pyRound ((resolved.map fun r => (r.grams : ℚ)).sum)
    calories := pyRound ((resolved.map fun r => r.calories).sum)
    proteinG := pyRound ((resolved.map fun r => r.proteinG).sum)
    fatG := pyRound ((resolved.map fun r => r.fatG).sum)
    carbsG := pyRound ((resolved.map fun r => r.carbsG).sum) }

/-- One item of a finished draft (bot.py lines 1439-1452): calories are
rounded per item, the other macros stay floats. -/
structure DraftItem where
  name : String
  grams : ℤ
  calories : ℤ
  proteinG : ℚ
  fatG : ℚ
  carbsG : ℚ
  barcode : Option String
  brand : Option String
  per100g : Per100
deriving DecidableEq, Repr

/-- bot.py lines 1440-1451. -/
def draftItemOfResolved (r : ResolvedItem) : DraftItem :=
  { name := r.name
    grams := r.grams
    calories := pyRound r.calories
    proteinG := r.proteinG
    fatG := r.fatG
    carbsG := r.carbsG
    barcode := r.barcode
    brand := r.brand
    per100g := r.per100g }

/-- A finished meal draft: item list plus aggregate totals. -/
structure Draft where
  items : List DraftItem
  totals : MealTotals
deriving DecidableEq, Repr

/-- The draft built from a fully resolved item list (bot.py lines 1431-1456,
identical construction at lines 1543-1567). -/
def mkMealDraft (resolved : List ResolvedItem) : Draft :=
  { items := resolved.map draftItemOfResolved
    totals := mealTotals resolved }

/-- The `ctx` disambiguation context returned when some item stayed
unresolved. -/
structure PickCtx where
  unresolved : List UnresolvedItem
  resolved : List ResolvedItem
deriving DecidableEq, Repr

/-- The accumulating loop of `_build_meal_from_items`. -/
def resolveItemsAux (oracle : FoodOracle) (items : List InputItem)
    (resolved : List ResolvedItem) (unresolved : List UnresolvedItem) :
    List ResolvedItem × List UnresolvedItem :=
  match items with
  | [] => (resolved, unresolved)
  | it :: rest =>
    match resolveItem oracle it with
    | .dropped => resolveItemsAux oracle rest resolved unresolved
    | .accepted r => resolveItemsAux oracle rest (resolved ++ [r]) unresolved
    | .unresolvedItem u => resolveItemsAux oracle rest resolved (unresolved ++ [u])

/-- `_build_meal_from_items` (bot.py lines 1366-1456): returns
`(draft, None)` when every item resolved, `(None, ctx)` otherwise. -/
def buildMealFromItems (oracle : FoodOracle) (items : List InputItem) :
    Option Draft × Option PickCtx :=
  let acc := resolveItemsAux oracle items [] []
  if acc.2.isEmpty then (some (mkMealDraft acc.1), none)
  else (none, some ⟨acc.2, acc.1⟩)

/-! ## Keyboard button texts (`src/keyboards.py`) -/

def BTN_PROFILE : String := "👤 Профиль"
def BTN_WEIGHT : String := "⚖️ Обновить вес"
def BTN_LOG_MEAL : String := "🍽️ Добавить еду"
def BTN_PHOTO_HELP : String := "📸 Добавить еду (фото)"
def BTN_PLAN : String := "🗓️ Рацион на день"
def BTN_WEEK : String := "📈 Анализ 7 дней"
def BTN_REMINDERS : String := "⏰ Напоминания"
def BTN_PROGRESS : String := "📷📏 Прогресс"
def BTN_HELP : String := "❓ Помощь"
def BTN_MENU : String := "🏠 Меню"
def BTN_CANCEL : String := "❌ Отмена"

/-! ## Dialog state (`User.dialog_state/step/data_json`, `UserRepo.set_dialog`) -/

/-- The structured payloads this development needs; everything other
flows store is collapsed into `other`. -/
inductive DialogPayload
  | mealConfirm (draft : Draft) (source : String) (photoFileId : Option String)
  | foodPick (ctx : PickCtx) (source : String) (photoFileId : Option String)
  | planGenerating (startedAtUtc : Option ℤ)
  | other
deriving DecidableEq

/-- The per-user dialog triple `(dialog_state, dialog_step, dialog_data_json)`
(models.py lines 53-55).  The opaque JSON payload is modelled structurally;
an ISO timestamp is modelled as seconds since the epoch, an
unparsable/missing one as `none`. -/
structure Dialog where
  mode : Option String
  step : Option ℤ
  payload : Option DialogPayload
deriving DecidableEq

/-- `set_dialog(user, None, None, None)`: the idle state. -/
def idleDialog : Dialog := ⟨none, none, none⟩

/-! ## Meal confirmation entry (`_start_meal_confirm`, bot.py lines 1278-1332) -/

inductive ConfirmStart
  | rejected
  | prompted
deriving DecidableEq, Repr

/-- `_start_meal_confirm` (bot.py lines 1278-1332), reduced to its state
effect: the guard at lines 1287-1300 clears the dialog and sends a
parse-failure message when the draft has no items or non-positive total
weight; otherwise the dialog enters `meal_confirm` at step 1 with the
draft as payload and the confirm question is sent. -/
def startMealConfirm (draft : Draft) (source : String)
    (photoFileId : Option String) : Dialog × ConfirmStart :=
  if draft.items.isEmpty ∨ draft.totals.totalWeightG ≤ 0 then
    (idleDialog, .rejected)
  else
    (⟨some ("meal_confirm"), some 1, some (.mealConfirm draft source photoFileId)⟩, .prompted)

/-! ## Food-pick disambiguation (`_handle_food_pick`, bot.py lines 1459-1569) -/

/-- The escape tokens checked first (bot.py lines 1465-1477). -/
def foodPickEscapeTokens : List String :=
  ["❌ Отмена", BTN_MENU, BTN_HELP, BTN_PROFILE, BTN_WEIGHT, BTN_LOG_MEAL,
   BTN_PHOTO_HELP, BTN_PLAN, BTN_WEEK, BTN_REMINDERS, BTN_PROGRESS]

/-- The live state of the food-pick flow: the `ctx` payload
(`unresolved`, `resolved`), the `dialog_step` index, and the
carried-through `source`/`photo_file_id`. -/
structure PickState where
  unresolved : List UnresolvedItem
  resolved : List ResolvedItem
  idx : ℕ
  source : String
  photoFileId : Option String
deriving DecidableEq, Repr

/-- The re-prompt messages of `_handle_food_pick` that leave the dialog
untouched. -/
inductive PickMsg
  | barcodeNotFound
  | askDigitOrBarcode
  | cannotFixChosen
  | incompleteNutrients
deriving DecidableEq, Repr

/-- The observable outcome of one `_handle_food_pick` call. -/
inductive PickResult
  | cancelled
  | notHandled
  | reprompt (msg : PickMsg)
  | advanced (st : PickState)
  | finished (draft : Draft) (source : String) (photoFileId : Option String)
deriving DecidableEq, Repr

/-- Placeholder for the (guarded) `unresolved[idx]` access. -/
def defaultUnresolved : UnresolvedItem := ⟨"", 0, []⟩

/-- bot.py lines 1515-1548: fix the chosen candidate by re-resolving its
barcode (`if chosen.get("barcode")` — truthy, so present and non-empty),
compute its macros, then either advance to the next unresolved item or
finish the draft. -/
def continueWithChosen (oracle : FoodOracle) (st : PickState)
    (chosen : FoodCandidate) : PickResult :=
  let grams : ℚ := (st.unresolved.getD st.idx defaultUnresolved).grams
  match chosen.barcode with
  | none => .reprompt .cannotFixChosen
  | some bc =>
    if bc = "" then .reprompt .cannotFixChosen
    else
      match oracle.byBarcode bc with
      | none => .reprompt .cannotFixChosen
      | some cand =>
        match computeItemMacros grams cand with
        | none => .reprompt .incompleteNutrients
        | some r =>
          let resolved2 := st.resolved ++ [r]
          let idx2 := st.idx + 1
          if idx2 < st.unresolved.length then
            .advanced { st with resolved := resolved2, idx := idx2 }
          else
            .finished (mkMealDraft resolved2) st.source st.photoFileId

/-- `_handle_food_pick` (bot.py lines 1459-1569), for a user already in
mode `food_pick`. -/
def handleFoodPick (oracle : FoodOracle) (st : PickState) (text : String) :
    PickResult :=
  let t := pyStrip text
  if foodPickEscapeTokens.contains t then .cancelled
  else if st.unresolved.length ≤ st.idx then .notHandled
  else
    let reply := t
    match maybeBarcode reply with
    | some bc =>
      match oracle.byBarcode bc with
      | none => .reprompt .barcodeNotFound
      | some cand => continueWithChosen oracle st cand
    | none =>
      if pyIsDigit reply then
        let n := digitsToNat reply
        let cands := (st.unresolved.getD st.idx defaultUnresolved).candidates
        if 1 ≤ n ∧ n ≤ cands.length then
          continueWithChosen oracle st (cands.getD (n - 1) ⟨none, "", none, none, none, none, none⟩)
        else .reprompt .askDigitOrBarcode
      else .reprompt .askDigitOrBarcode

/-- The dialog write each `_handle_food_pick` path performs: cancels and
the stale-index path clear the dialog, a finished draft clears it (the
draft then flows into `_start_meal_confirm`), an advance rewrites the
`food_pick` state with the next index, and every re-prompt path performs
no `set_dialog` call at all. -/
def pickResultDialog (old : Dialog) : PickResult → Dialog
  | .cancelled => idleDialog
  | .notHandled => idleDialog
  | .reprompt _ => old
  | .advanced st =>
    ⟨some ("food_pick"), some (st.idx : ℤ),
     some (.foodPick ⟨st.unresolved, st.resolved⟩ st.source st.photoFileId)⟩
  | .finished _ _ _ => idleDialog

/-- One valid disambiguation answer: an answer on which the flow makes
progress (advances to the next item or finishes the draft). -/
def pickStepValid (oracle : FoodOracle) (st : PickState) (reply : String) :
    Option (PickState ⊕ Draft) :=
  match handleFoodPick oracle st reply with
  | .advanced st2 => some (.inl st2)
  | .finished d _ _ => some (.inr d)
  | _ => none

/-- Run a sequence of replies through the flow, requiring each to be a
valid answer; `none` as soon as one is not (or if replies remain after
the draft is finished). -/
def runPickValid (oracle : FoodOracle) :
    PickState → List String → Option (PickState ⊕ Draft)
  | st, [] => some (.inl st)
  | st, r :: rs =>
    match pickStepValid oracle st r with
    | some (.inl st2) => runPickValid oracle st2 rs
    | some (.inr d) => if rs.isEmpty then some (.inr d) else none
    | none => none

/-! ## Plan quality gate and tier loop
(`_plan_quality_ok` bot.py lines 345-371, `_generate_plan_for_days` lines 2875-2944) -/

/-- A product of a normalized day plan (`_normalize_day_plan` output). -/
structure PlanProduct where
  name : String
  grams : ℚ
  store : String
deriving DecidableEq, Repr

/-- A meal of a normalized day plan, keeping the fields the quality gate
reads (product list and per-meal kcal, which may be absent). -/
structure PlanMeal where
  products : List PlanProduct
  kcal : Option ℚ
deriving DecidableEq, Repr

/-- A normalized day plan, keeping the fields the quality gate reads. -/
structure DayPlan where
  meals : List PlanMeal
  totalsKcal : Option ℚ
deriving DecidableEq, Repr

/-- The supplement/powder denylist (bot.py line 351). -/
def bannedKeywords : List String :=
  ["whey", "protein powder", "mass gainer", "gainer", "bca", "bcaa",
   "creatine", "протеин", "сыворот", "гейнер", "креатин"]

/-- Per-product checks of `_plan_quality_ok` (bot.py lines 356-363):
non-empty stripped name, positive grams, no denylisted keyword in the
lowercased name. -/
def productGateOk (p : PlanProduct) : Bool :=
  let name := pyStrip p.name
  if name = "" ∨ p.grams ≤ 0 then false
  else !(bannedKeywords.any fun b => isSubstring b (pyLower name))

/-- Per-meal check: a non-empty product list, all products passing. -/
def mealGateOk (m : PlanMeal) : Bool :=
  !m.products.isEmpty && m.products.all productGateOk

/-- The total calories the gate compares (bot.py lines 364-368):
`totals.kcal` when present, otherwise the sum of per-meal kcal with
missing values as 0 (the final `float(kcal or 0)` maps a falsy 0.0 to 0,
the same value). -/
def planTotalKcal (p : DayPlan) : ℚ :=
  match p.totalsKcal with
  | some k => k
  | none => (p.meals.map fun m => m.kcal.getD 0).sum

/-- `_plan_quality_ok` (bot.py lines 345-371).  The Python literal `0.07`
is modelled as the exact rational 7/100. -/
def planQualityOk (p : DayPlan) (kcalTarget : ℤ) : Bool :=
  if p.meals.isEmpty then false
  else if p.meals.all mealGateOk then
    decide (|planTotalKcal p - (kcalTarget : ℚ)| ≤ (kcalTarget : ℚ) * (7 / 100))
  else false

/-- The model-tier loop of `_generate_plan_for_days` (bot.py lines
2875-2909) for one day.  Each list entry is one tier's outcome: `none`
when the oracle call raised or returned a non-object, `some p` the
normalized plan.  The loop keeps the last normalized plan, breaks on the
first one passing the gate, and after the loop raises (yielding no plan)
when there is no plan at all or the last one still fails the gate. -/
def generateDayPlan (kcalTarget : ℤ) :
    List (Option DayPlan) → Option DayPlan → Option DayPlan
  | [], lastPlan =>
    match lastPlan with
    | none => none
    | some p => if planQualityOk p kcalTarget then some p else none
  | attempt :: rest, lastPlan =>
    match attempt with
    | none => generateDayPlan kcalTarget rest lastPlan
    | some p =>
      if planQualityOk p kcalTarget then some p
      else generateDayPlan kcalTarget rest (some p)

/-! ## Plan-generating router gate (`any_text`, bot.py lines 3143-3166) -/

inductive GateResult
  | timeoutReset
  | cancelReset
  | pleaseWait
  | passThrough
deriving DecidableEq, Repr

/-- The cancel test at bot.py line 3160. -/
def planGenCancelHit (t : String) : Bool :=
  normText t = normText BTN_CANCEL || normText t = "отмена" ||
    t = "❌ Отмена" || t = BTN_MENU

/-- The head of `any_text` (bot.py lines 3143-3166): while a plan
generation is marked in progress, a start timestamp more than 90 seconds
old resets the dialog to idle; otherwise only a cancel token resets, and
everything else gets a please-wait reply.  Any other mode passes through
to the rest of the router. -/
def planGeneratingGate (nowUtc : ℤ) (dlg : Dialog) (text : String) :
    Dialog × GateResult :=
  let t := pyStrip text
  if dlg.mode = some ("plan_generating") then
    let started : Option ℤ :=
      match dlg.payload with
      | some (.planGenerating s) => s
      | _ => none
    let timedOut : Bool :=
      match started with
      | some st => decide (90 < nowUtc - st)
      | none => false
    if timedOut then (idleDialog, .timeoutReset)
    else if planGenCancelHit t then (idleDialog, .cancelReset)
    else (dlg, .pleaseWait)
  else (dlg, .passThrough)

/-! ## Targets calculator (`src/nutrition.py`) -/

inductive Sex
  | male
  | female
deriving DecidableEq, Repr

inductive ActivityLevel
  | low
  | medium
  | high
deriving DecidableEq, Repr

inductive Goal
  | loss
  | maintain
  | gain
  | recomp
deriving DecidableEq, Repr

/-- `Targets` (nutrition.py line 13). -/
structure Targets where
  calories : ℤ
  proteinG : ℤ
  fatG : ℤ
  carbsG : ℤ
deriving DecidableEq, Repr

/-- `CalcMeta` (nutrition.py line 21), without the redundant goal copy. -/
structure CalcMeta where
  bmrKcal : ℤ
  tdeeKcal : ℤ
  deficitPct : ℚ
  deficitKcal : ℤ
deriving DecidableEq, Repr

/-- `_activity_multiplier` (nutrition.py line 29); float literals as
exact rationals. -/
def activityMultiplier : ActivityLevel → ℚ
  | .low => 6 / 5
  | .medium => 31 / 20
  | .high => 69 / 40

/-- `bmr_mifflin_st_jeor` (nutrition.py line 38). -/
def bmrMifflinStJeor (sex : Sex) (age : ℤ) (heightCm weightKg : ℚ) : ℚ :=
  let s : ℚ := match sex with | .male => 5 | .female => -161
  10 * weightKg + (25 / 4) * heightCm - 5 * age + s

/-- `tdee` (nutrition.py line 44). -/
def tdeeOf (bmr : ℚ) (activity : ActivityLevel) : ℚ :=
  bmr * activityMultiplier activity

/-- `default_deficit_pct` (nutrition.py line 48). -/
def defaultDeficitPct : Goal → ℚ
  | .loss => 15 / 100
  | .recomp => 10 / 100
  | .gain => -(10 / 100)
  | .maintain => 0

/-- `clamp_deficit_pct` (nutrition.py line 59). -/
def clampDeficitPct (goal : Goal) (pct : ℚ) : ℚ :=
  match goal with
  | .gain => max (min pct (-(5 / 100))) (-(15 / 100))
  | .maintain => 0
  | .recomp => max (min pct (15 / 100)) (5 / 100)
  | .loss => max (min pct (30 / 100)) (10 / 100)

/-- `calorie_target_from_tdee` (nutrition.py line 71). -/
def calorieTargetFromTdee (td : ℚ) (goal : Goal) (deficitPct : Option ℚ) :
    ℤ × ℚ :=
  let pct := clampDeficitPct goal (deficitPct.getD (defaultDeficitPct goal))
  (pyRound (td * (1 - pct)), pct)

/-- `macros_for_targets` (nutrition.py line 78). -/
def macrosForTargets (calories : ℤ) (weightKg : ℚ) (goal : Goal) : Targets :=
  let protein := pyRound ((if goal = .gain ∨ goal = .recomp then 9/5 else 8/5) * weightKg)
  let fat := pyRound ((4 / 5) * weightKg)
  let kcalPf := protein * 4 + fat * 9
  let carbsKcal := max (calories - kcalPf) 0
  let carbs := pyRound ((carbsKcal : ℚ) / 4)
  ⟨calories, protein, fat, carbs⟩

/-- `compute_targets_with_meta` (nutrition.py line 113).  The
`deficit_kcal` field is `int(round(int(round(td)) - cal))`, i.e. the
rounding of an integer-valued difference, written directly. -/
def computeTargetsWithMeta (sex : Sex) (age : ℤ) (heightCm weightKg : ℚ)
    (activity : ActivityLevel) (goal : Goal) (deficitPct : Option ℚ) :
    Targets × CalcMeta :=
  let b := bmrMifflinStJeor sex age heightCm weightKg
  let td := tdeeOf b activity
  let calPct := calorieTargetFromTdee td goal deficitPct
  let targets := macrosForTargets calPct.1 weightKg goal
  (targets, ⟨pyRound b, pyRound td, calPct.2, pyRound td - calPct.1⟩)

/-! ## Preferences and active targets
(`_active_targets` bot.py lines 488-529, weight update lines 3341-3405) -/

/-- The `targets` sub-document of Preferences (the keys `_active_targets`
and the plan engine read; numeric values are stored as ints). -/
structure TargetsPref where
  calories : Option ℤ
  caloriesWeekdays : Option ℤ
  caloriesWeekends : Option ℤ
  proteinG : Option ℤ
  fatG : Option ℤ
  carbsG : Option ℤ
deriving DecidableEq, Repr

/-- The slice of the per-user Preferences JSON document that the targets
flows read and write; a missing key is `none`. -/
structure Prefs where
  targetsSource : Option String
  targets : Option TargetsPref
  deficitPct : Option ℚ
  bmrKcal : Option ℤ
  tdeeKcal : Option ℤ
  preferredStore : Option String
  timezone : Option String
deriving DecidableEq, Repr

/-- The slice of the User row the targets flows touch.  Profile fields
are total because these flows are only reachable with a complete
profile. -/
structure UserRec where
  sex : Sex
  age : ℤ
  heightCm : ℚ
  weightKg : ℚ
  activity : ActivityLevel
  goal : Goal
  caloriesTarget : Option ℤ
  proteinGTarget : Option ℤ
  fatGTarget : Option ℤ
  carbsGTarget : Option ℤ
deriving DecidableEq, Repr

/-- The resolved active targets (`_active_targets` return value). -/
structure ActiveTargets where
  kcal : Option ℤ
  proteinG : Option ℤ
  fatG : Option ℤ
  carbsG : Option ℤ
  source : String
  store : String
deriving DecidableEq, Repr

/-- The `_k` helper of `_active_targets` (bot.py lines 501-511): the
weekday/weekend override wins, then the plain `calories` key, then the
user row snapshot. -/
def activeKcal (targ : Option TargetsPref) (user : UserRec) (isWeekday : Bool) :
    Option ℤ :=
  match targ with
  | some t =>
    if isWeekday ∧ t.caloriesWeekdays.isSome then t.caloriesWeekdays
    else if ¬isWeekday ∧ t.caloriesWeekends.isSome then t.caloriesWeekends
    else if t.calories.isSome then t.calories
    else user.caloriesTarget
  | none => user.caloriesTarget

/-- `str(prefs.get("targets_source") or "").strip().lower() or "coach"`
(bot.py line 499). -/
def targetsSourceOf (prefs : Prefs) : String :=
  let s := pyLower (pyStrip (prefs.targetsSource.getD ""))
  if s = "" then "coach" else s

/-- `_active_targets` (bot.py lines 488-529).  The macro-recompute branch
needs truthy `user.weight_kg` (non-zero; profile-complete users have one)
and a goal, which the model always has. -/
def activeTargets (prefs : Prefs) (user : UserRec) (isWeekday : Bool) :
    ActiveTargets :=
  let source := targetsSourceOf prefs
  let targ := prefs.targets
  let kcal := activeKcal targ user isWeekday
  let p := match targ with
    | some t => match t.proteinG with | some v => some v | none => user.proteinGTarget
    | none => user.proteinGTarget
  let f := match targ with
    | some t => match t.fatG with | some v => some v | none => user.fatGTarget
    | none => user.fatGTarget
  let c := match targ with
    | some t => match t.carbsG with | some v => some v | none => user.carbsGTarget
    | none => user.carbsGTarget
  let store := match prefs.preferredStore with
    | some s => if s = "" then "any" else s
    | none => "any"
  match kcal with
  | some k =>
    if (p.isNone ∨ f.isNone ∨ c.isNone) ∧ user.weightKg ≠ 0 then
      let mt := macrosForTargets k user.weightKg user.goal
      ⟨some k, some mt.proteinG, some mt.fatG, some mt.carbsG, source, store⟩
    else ⟨some k, p, f, c, source, store⟩
  | none => ⟨none, p, f, c, source, store⟩

/-- `str(prefs.get("targets_source") or "coach").strip().lower()`
(bot.py line 3370). -/
def weightUpdateSource (prefs : Prefs) : String :=
  let s0 := match prefs.targetsSource with
    | some t => if t = "" then "coach" else t
    | none => "coach"
  pyLower (pyStrip s0)

/-- The target-recompute part of the `set_weight` dialog branch of
`any_text` (bot.py lines 3341-3405): store the new weight, recompute
targets and meta, overwrite the target snapshot and the `targets`
preference only when the target source is not `custom` (for `custom`,
re-derive the snapshot from the active custom targets instead), and
always merge the BMR/TDEE/deficit metadata. -/
def setWeightUpdate (user0 : UserRec) (prefs : Prefs) (w : ℚ)
    (isWeekday : Bool) : UserRec × Prefs :=
  let user := { user0 with weightKg := w }
  let trMeta := computeTargetsWithMeta user.sex user.age user.heightCm
    user.weightKg user.activity user.goal prefs.deficitPct
  let tr := trMeta.1
  let meta := trMeta.2
  if weightUpdateSource prefs ≠ "custom" then
    let user2 := { user with
      caloriesTarget := some tr.calories
      proteinGTarget := some tr.proteinG
      fatGTarget := some tr.fatG
      carbsGTarget := some tr.carbsG }
    let prefs2 := { prefs with
      targetsSource := some ("coach")
      targets := some ⟨some tr.calories, none, none,
        some tr.proteinG, some tr.fatG, some tr.carbsG⟩
      bmrKcal := some meta.bmrKcal
      tdeeKcal := some meta.tdeeKcal
      deficitPct := some meta.deficitPct }
    (user2, prefs2)
  else
    let active := activeTargets prefs user isWeekday
    let user2 := { user with
      caloriesTarget := match active.kcal with
        | some k => some k
        | none => user.caloriesTarget
      proteinGTarget := match active.proteinG with
        | some v => some v
        | none => user.proteinGTarget
      fatGTarget := match active.fatG with
        | some v => some v
        | none => user.fatGTarget
      carbsGTarget := match active.carbsG with
        | some v => some v
        | none => user.carbsGTarget }
    let prefs2 := { prefs with
      bmrKcal := some meta.bmrKcal
      tdeeKcal := some meta.tdeeKcal
      deficitPct := some meta.deficitPct }
    (user2, prefs2)

/-! ## Background scheduler time-window triggers
(`_checkin_loop`, bot.py lines 2664-2733 and 2735-2770) -/

/-- The day-of-week filter value after normalization (a preference value
outside the three known strings is treated as `all`). -/
inductive DayFilter
  | weekdays
  | weekends
  | all
deriving DecidableEq, Repr

def dayFilterOfString (s : String) : Option DayFilter :=
  if s = "weekdays" then some .weekdays
  else if s = "weekends" then some .weekends
  else if s = "all" then some .all
  else none

/-- The user's current local time as the loop observes it:
`now_local.hour`, `now_local.minute`, `now_local.weekday()` (0 = Monday),
and `now_local.date().isoformat()`. -/
structure LocalNow where
  hour : ℕ
  minute : ℕ
  weekday : ℕ
  dateStr : String
deriving DecidableEq, Repr

/-- `re.fullmatch(r"\d{2}:\d{2}", tstr)` plus `hh = int(tstr[:2])`,
`mm = int(tstr[3:5])`. -/
def parseHHMM (s : String) : Option (ℕ × ℕ) :=
  match s.toList with
  | [h1, h2, colon, m1, m2] =>
    if h1.isDigit ∧ h2.isDigit ∧ colon = ':' ∧ m1.isDigit ∧ m2.isDigit then
      some ((h1.toNat - 48) * 10 + (h2.toNat - 48),
            (m1.toNat - 48) * 10 + (m2.toNat - 48))
    else none
  | _ => none

/-- The day filter (bot.py lines 2671-2674): skip when weekdays-only on a
weekend day or weekends-only on a weekday. -/
def dayFilterOk (d : DayFilter) (weekday : ℕ) : Bool :=
  let isWeekday := weekday < 5
  !((d = .weekdays ∧ ¬isWeekday) ∨ (d = .weekends ∧ isWeekday))

/-- The shared daily time-window trigger condition (bot.py lines
2664-2688, identically at 2690-2733 and 2735-2770): enabled, a
well-formed HH:MM, the day filter matching, the local hour equal to the
configured hour, the local minute in `[mm, mm + 2]`, and no firing
recorded yet for the current local date. -/
def timeWindowFires (enabled : Bool) (tstr : String) (days : DayFilter)
    (lastFiredDate : Option String) (now : LocalNow) : Bool :=
  enabled &&
    match parseHHMM tstr with
    | none => false
    | some hm =>
      dayFilterOk days now.weekday &&
        (decide (now.hour = hm.1) && decide (hm.2 ≤ now.minute) &&
         decide (now.minute ≤ hm.2 + 2) &&
         decide (lastFiredDate ≠ some now.dateStr))

/-- The daily weight-prompt trigger (bot.py lines 2664-2688) with its
preference defaults: `weight_prompt_enabled is True`, time default
"06:00", day filter default `all`. -/
def weightPromptFires (enabled : Option Bool) (timePref : Option String)
    (daysPref : Option String) (lastDate : Option String) (now : LocalNow) :
    Bool :=
  let tstr := timePref.getD "06:00"
  let days := (daysPref.bind dayFilterOfString).getD .all
  timeWindowFires (enabled = some true) tstr days lastDate now

/-- What the specification's words say the window is: the current minute
within the configured minute ± 2 (same hour, same filters).  Modelled
from the spec, for comparison with `timeWindowFires`. -/
def specTimeWindowFires (enabled : Bool) (tstr : String) (days : DayFilter)
    (lastFiredDate : Option String) (now : LocalNow) : Bool :=
  enabled &&
    match parseHHMM tstr with
    | none => false
    | some hm =>
      dayFilterOk days now.weekday &&
        (decide (now.hour = hm.1) && decide (hm.2 ≤ now.minute + 2) &&
         decide (now.minute ≤ hm.2 + 2) &&
         decide (lastFiredDate ≠ some now.dateStr))

/-! ## The dialog writes of the code base (claim C1)

Every write to the dialog triple in `src/bot.py` — the 68 `set_dialog`
call sites plus the direct field assignment in `_checkin_loop` (lines
2752-2754) and the all-null initial state of a freshly created user row —
recorded by the mode written and by whether the step and the payload
written are null.  The two call sites whose payload argument is
conditionally `None` (lines 2796 and 3444) contribute one entry per
shape. -/

structure DialogWrite where
  mode : Option String
  stepIsNull : Bool
  payloadIsNull : Bool
deriving DecidableEq, Repr

def dialogWrites : List DialogWrite :=
  [ ⟨none, true, true⟩,                        -- initial row (models.py 53-55)
    ⟨some ("onboarding"), false, false⟩,       -- 624
    ⟨some ("coach_onboarding"), false, false⟩, -- 633
    ⟨none, true, true⟩,                        -- 837
    ⟨some ("onboarding"), false, false⟩,       -- 911
    ⟨some ("onboarding"), false, false⟩,       -- 954
    ⟨none, true, true⟩,                        -- 1048
    ⟨some ("onboarding"), false, false⟩,       -- 1069
    ⟨some ("coach_onboarding"), false, false⟩, -- 1173
    ⟨some ("targets_mode"), false, false⟩,     -- 1247
    ⟨none, true, true⟩,                        -- 1294
    ⟨some ("meal_confirm"), false, false⟩,     -- 1302
    ⟨none, true, true⟩,                        -- 1478
    ⟨none, true, true⟩,                        -- 1491
    ⟨some ("food_pick"), false, false⟩,        -- 1533
    ⟨none, true, true⟩,                        -- 1568
    ⟨some ("photo_clarify"), false, false⟩,    -- 1629
    ⟨some ("meal_clarify"), false, false⟩,     -- 1710
    ⟨some ("food_pick"), false, false⟩,        -- 1722
    ⟨none, true, true⟩,                        -- 1756
    ⟨some ("photo_clarify"), false, false⟩,    -- 1770
    ⟨none, true, true⟩,                        -- 1789
    ⟨some ("food_pick"), false, false⟩,        -- 1794
    ⟨none, true, true⟩,                        -- 1836
    ⟨none, true, true⟩,                        -- 1851
    ⟨none, true, true⟩,                        -- 1855
    ⟨none, true, true⟩,                        -- 1860
    ⟨none, true, true⟩,                        -- 1882
    ⟨some ("meal_clarify"), false, false⟩,     -- 1895
    ⟨none, true, true⟩,                        -- 1913
    ⟨some ("food_pick"), false, false⟩,        -- 1918
    ⟨none, true, true⟩,                        -- 1945
    ⟨none, true, true⟩,                        -- 1970
    ⟨none, true, true⟩,                        -- 1978
    ⟨some ("meal_clarify"), false, false⟩,     -- 2395
    ⟨some ("food_pick"), false, false⟩,        -- 2406
    ⟨none, true, true⟩,                        -- 2419
    ⟨none, true, true⟩,                        -- 2477
    ⟨none, true, true⟩,                        -- 2529
    ⟨none, true, true⟩,                        -- 2538
    ⟨some ("targets_custom"), false, true⟩,    -- 2542
    ⟨none, true, true⟩,                        -- 2605
    ⟨some ("plan_when"), false, false⟩,        -- 2796 (days_prefill given)
    ⟨some ("plan_when"), false, true⟩,         -- 2796 (no prefill: data=None)
    ⟨some ("daily_checkin"), false, false⟩,    -- 2752-2754 (direct write)
    ⟨some ("plan_edit"), false, false⟩,        -- 2921
    ⟨some ("plan_edit"), false, false⟩,        -- 2951
    ⟨some ("plan_edit"), false, false⟩,        -- 2971
    ⟨some ("apply_calories"), false, false⟩,   -- 3126
    ⟨none, true, true⟩,                        -- 3153
    ⟨none, true, true⟩,                        -- 3161
    ⟨some ("plan_when"), false, true⟩,         -- 3247
    ⟨some ("reminders_setup"), false, true⟩,   -- 3255
    ⟨some ("progress_mode"), false, true⟩,     -- 3269
    ⟨some ("set_weight"), false, true⟩,        -- 3281
    ⟨none, true, true⟩,                        -- 3295
    ⟨none, true, true⟩,                        -- 3302
    ⟨none, true, true⟩,                        -- 3311
    ⟨none, true, true⟩,                        -- 3394
    ⟨none, true, true⟩,                        -- 3417
    ⟨some ("plan_date"), false, false⟩,        -- 3444 (prefill kept)
    ⟨some ("plan_date"), false, true⟩,         -- 3444 (keep=None)
    ⟨some ("plan_store"), false, false⟩,       -- 3478
    ⟨some ("plan_store"), false, false⟩,       -- 3519
    ⟨some ("plan_days"), false, false⟩,        -- 3557
    ⟨some ("plan_generating"), false, false⟩,  -- 3590
    ⟨none, true, true⟩,                        -- 3605
    ⟨none, true, true⟩,                        -- 3636
    ⟨some ("plan_when"), false, true⟩,         -- 3823
    ⟨some ("meal_clarify"), false, false⟩,     -- 3888
    ⟨some ("meal_clarify"), false, false⟩,     -- 3900
    ⟨some ("food_pick"), false, false⟩ ]       -- 3912

/-! ## Helper lemmas -/

theorem pyRound_intCast (n : ℤ) : pyRound (n : ℚ) = n := by
  unfold pyRound
  simp only [Int.floor_intCast, sub_self]
  norm_num

theorem pyRound_abs_le (q : ℚ) : |(pyRound q : ℚ) - q| ≤ 1 / 2 := by
  unfold pyRound
  have h0 : (0 : ℚ) ≤ q - ⌊q⌋ := sub_nonneg.mpr (Int.floor_le q)
  have h1 : q - (⌊q⌋ : ℚ) < 1 := by
    have := Int.lt_floor_add_one q
    linarith
  by_cases hlt : q - (⌊q⌋ : ℚ) < 1 / 2
  · simp only [hlt, if_true]
    rw [abs_le]
    constructor <;> linarith
  · by_cases hgt : 1 / 2 < q - (⌊q⌋ : ℚ)
    · simp only [hlt, hgt, if_false, if_true]
      push_cast
      rw [abs_le]
      constructor <;> linarith
    · have heq : q - (⌊q⌋ : ℚ) = 1 / 2 := le_antisymm (not_lt.mp hgt) (not_lt.mp hlt)
      by_cases hpar : ⌊q⌋ % 2 = 0
      · simp only [hlt, hgt, hpar, if_false, if_true]
        rw [abs_le]
        constructor <;> linarith
      · simp only [hlt, hgt, hpar, if_false]
        push_cast
        rw [abs_le]
        constructor <;> linarith

/-! ## Claim C1 — dialog-state nullness -/

/-- C1, counterexample: the claim "mode == null iff step == null iff
payload == null at every write" fails on the code: the plan-menu write at
bot.py line 3247 (`set_dialog(user, state="plan_when", step=0, data=None)`)
stores a non-null mode and step together with a null payload. -/
theorem C1_dialog_biconditional_counterexample :
    ¬ ∀ w ∈ dialogWrites,
        ((w.mode = none) ↔ w.stepIsNull = true) ∧
        (w.stepIsNull = w.payloadIsNull) := by
  decide

/-- C1, amended: at every dialog write performed by the code (and at the
initial row), mode and step are null together, and a null mode always
comes with a null payload — but a non-null mode may carry a null payload
(e.g. the `plan_when` menu entry), so the full three-way biconditional
does not hold. -/
theorem C1_dialog_null_invariant :
    ∀ w ∈ dialogWrites,
      ((w.mode = none) ↔ w.stepIsNull = true) ∧
      (w.mode = none → w.payloadIsNull = true) := by
  decide

theorem C1_dialog_null_invariant_witness :
    (⟨none, true, true⟩ : DialogWrite) ∈ dialogWrites ∧
      ((((⟨none, true, true⟩ : DialogWrite).mode = none) ↔
        (⟨none, true, true⟩ : DialogWrite).stepIsNull = true) ∧
       ((⟨none, true, true⟩ : DialogWrite).mode = none →
        (⟨none, true, true⟩ : DialogWrite).payloadIsNull = true)) :=
  ⟨by decide, C1_dialog_null_invariant ⟨none, true, true⟩ (by decide)⟩

/-! ## Claim C4 — no empty confirmation -/

/-- C4: a draft with no items or non-positive total weight never enters
the `meal_confirm` dialog state: `_start_meal_confirm` clears the dialog
to idle and reports a failure instead, and the mode is `meal_confirm`
exactly when the guard passes. -/
theorem C4_no_empty_confirmation :
    ∀ (draft : Draft) (source : String) (photo : Option String),
      ((draft.items = [] ∨ draft.totals.totalWeightG ≤ 0) →
        startMealConfirm draft source photo = (idleDialog, .rejected)) ∧
      ((startMealConfirm draft source photo).1.mode = some ("meal_confirm") ↔
        ¬(draft.items = [] ∨ draft.totals.totalWeightG ≤ 0)) := by
  intro draft source photo
  constructor
  · intro h
    have h2 : draft.items.isEmpty = true ∨ draft.totals.totalWeightG ≤ 0 := by
      rcases h with h | h
      · exact Or.inl (by simp [h])
      · exact Or.inr h
    unfold startMealConfirm
    rw [if_pos h2]
  · unfold startMealConfirm
    by_cases h : draft.items.isEmpty = true ∨ draft.totals.totalWeightG ≤ 0
    · simp only [h, if_true]
      simp only [idleDialog]
      constructor
      · intro hc
        exact absurd hc (by simp)
      · intro hn
        exact absurd (by simpa [List.isEmpty_iff] using h) hn
    · simp only [h, if_false]
      simp only [List.isEmpty_iff] at h
      simp [h]

theorem C4_no_empty_confirmation_witness :
    ((((⟨[], ⟨0, 0, 0, 0, 0⟩⟩ : Draft).items = [] ∨
        (⟨[], ⟨0, 0, 0, 0, 0⟩⟩ : Draft).totals.totalWeightG ≤ 0) →
      startMealConfirm ⟨[], ⟨0, 0, 0, 0, 0⟩⟩ ("text") none = (idleDialog, .rejected)) ∧
     ((startMealConfirm ⟨[], ⟨0, 0, 0, 0, 0⟩⟩ ("text") none).1.mode = some ("meal_confirm") ↔
      ¬((⟨[], ⟨0, 0, 0, 0, 0⟩⟩ : Draft).items = [] ∨
        (⟨[], ⟨0, 0, 0, 0, 0⟩⟩ : Draft).totals.totalWeightG ≤ 0))) ∧
    startMealConfirm ⟨[], ⟨0, 0, 0, 0, 0⟩⟩ ("text") none = (idleDialog, .rejected) :=
  ⟨C4_no_empty_confirmation ⟨[], ⟨0, 0, 0, 0, 0⟩⟩ ("text") none,
   (C4_no_empty_confirmation ⟨[], ⟨0, 0, 0, 0, 0⟩⟩ ("text") none).1 (Or.inl rfl)⟩

/-! ## Claim C7 — stuck-generation timeout -/

/-- C7: while the dialog mode is `plan_generating` with a recorded start
timestamp more than 90 seconds in the past, the next inbound message —
whatever its content — resets the dialog to idle with a timeout notice,
before any other handling. -/
theorem C7_stuck_generation_timeout :
    ∀ (nowUtc : ℤ) (dlg : Dialog) (text : String) (t0 : ℤ),
      dlg.mode = some ("plan_generating") →
      dlg.payload = some (.planGenerating (some t0)) →
      90 < nowUtc - t0 →
      planGeneratingGate nowUtc dlg text = (idleDialog, .timeoutReset) := by
  intro nowUtc dlg text t0 hmode hpayload htime
  unfold planGeneratingGate
  simp only [hmode, hpayload, if_true]
  simp [htime]

theorem C7_stuck_generation_timeout_witness :
    (⟨some ("plan_generating"), some 0,
        some (.planGenerating (some 100))⟩ : Dialog).mode = some ("plan_generating") ∧
    planGeneratingGate 195
      ⟨some ("plan_generating"), some 0, some (.planGenerating (some 100))⟩
      ("привет") = (idleDialog, .timeoutReset) :=
  ⟨rfl,
   C7_stuck_generation_timeout 195
     ⟨some ("plan_generating"), some 0, some (.planGenerating (some 100))⟩
     ("привет") 100 rfl rfl (by norm_num)⟩

/-! ## Claim C9 — scheduler time-window triggers -/

/-- C9, counterexample: the claim's window "configured minute ± 2" does
not match the code.  At configured time 06:05 and local time 06:03 the
claimed window (within ± 2 minutes) fires, but the code
(`mm <= now_local.minute <= mm + 2`, bot.py line 2678) does not. -/
theorem C9_window_counterexample :
    specTimeWindowFires true ("06:05") .all none ⟨6, 3, 0, "2026-10-12"⟩ = true ∧
    timeWindowFires true ("06:05") .all none ⟨6, 3, 0, "2026-10-12"⟩ = false := by
  constructor
  · rfl
  · rfl

/-- C9, amended: a daily time-window trigger fires exactly when it is
enabled, its HH:MM is well-formed, the day filter matches the local
weekday, the local hour equals the configured hour, the local minute lies
in `[mm, mm + 2]` (the configured minute up to two minutes after it — not
± 2), and the trigger has not yet fired for the current local date; the
weight-prompt trigger is this condition with its preference defaults. -/
theorem C9_time_window_trigger :
    (∀ (enabled : Bool) (tstr : String) (days : DayFilter)
        (lastDate : Option String) (now : LocalNow),
      timeWindowFires enabled tstr days lastDate now = true ↔
        enabled = true ∧ ∃ hm, parseHHMM tstr = some hm ∧
          dayFilterOk days now.weekday = true ∧
          now.hour = hm.1 ∧ hm.2 ≤ now.minute ∧ now.minute ≤ hm.2 + 2 ∧
          lastDate ≠ some now.dateStr) ∧
    (∀ (enabled : Option Bool) (timePref daysPref : Option String)
        (lastDate : Option String) (now : LocalNow),
      weightPromptFires enabled timePref daysPref lastDate now =
        timeWindowFires (enabled = some true) (timePref.getD "06:00")
          ((daysPref.bind dayFilterOfString).getD .all) lastDate now) := by
  constructor
  · intro enabled tstr days lastDate now
    unfold timeWindowFires
    cases hp : parseHHMM tstr with
    | none => simp [hp]
    | some hm =>
      simp only [hp, Bool.and_eq_true, decide_eq_true_eq]
      constructor
      · intro h
        refine ⟨h.1, hm, rfl, ?_, ?_, ?_, ?_, ?_⟩ <;> tauto
      · rintro ⟨hen, hm2, hphm, hrest⟩
        obtain rfl : hm2 = hm := (Option.some.inj hphm).symm
        refine ⟨hen, ?_⟩
        tauto
  · intro enabled timePref daysPref lastDate now
    rfl

theorem C9_time_window_trigger_witness :
    timeWindowFires true ("06:05") .all none ⟨6, 5, 0, "2026-10-12"⟩ = true ∧
    (true = true ∧ ∃ hm, parseHHMM ("06:05") = some hm ∧
      dayFilterOk .all 0 = true ∧ (6 : ℕ) = hm.1 ∧ hm.2 ≤ 5 ∧ 5 ≤ hm.2 + 2 ∧
      (none : Option String) ≠ some ("2026-10-12")) :=
  ⟨by rfl,
   (C9_time_window_trigger.1 true ("06:05") .all none ⟨6, 5, 0, "2026-10-12"⟩).mp (by rfl)⟩

/-! ## Claim C2 — plan quality gate -/

theorem productGateOk_iff (p : PlanProduct) :
    productGateOk p = true ↔
      pyStrip p.name ≠ "" ∧ 0 < p.grams ∧
      ∀ b ∈ bannedKeywords, isSubstring b (pyLower (pyStrip p.name)) = false := by
  unfold productGateOk
  by_cases h : pyStrip p.name = "" ∨ p.grams ≤ 0
  · rw [if_pos h]
    simp only [Bool.false_eq_true, false_iff]
    rintro ⟨hn, hg, -⟩
    rcases h with h | h
    · exact hn h
    · exact absurd hg (not_lt.mpr h)
  · rw [if_neg h]
    push_neg at h
    simp only [Bool.not_eq_true', List.any_eq_false]
    constructor
    · intro hall
      refine ⟨h.1, h.2, ?_⟩
      intro b hb
      simpa using hall b hb
    · rintro ⟨-, -, hall⟩
      intro b hb
      simp [hall b hb]

theorem mealGateOk_iff (m : PlanMeal) :
    mealGateOk m = true ↔
      m.products ≠ [] ∧ ∀ pr ∈ m.products, productGateOk pr = true := by
  unfold mealGateOk
  simp [List.isEmpty_iff, List.all_eq_true]

theorem planQualityOk_iff (p : DayPlan) (t : ℤ) :
    planQualityOk p t = true ↔
      p.meals ≠ [] ∧ (∀ m ∈ p.meals, mealGateOk m = true) ∧
      |planTotalKcal p - (t : ℚ)| ≤ (t : ℚ) * (7 / 100) := by
  unfold planQualityOk
  by_cases h : p.meals.isEmpty
  · rw [if_pos h]
    simp only [Bool.false_eq_true, false_iff]
    rintro ⟨hne, -, -⟩
    exact hne (List.isEmpty_iff.mp h)
  · rw [if_neg h]
    by_cases h2 : p.meals.all mealGateOk
    · rw [if_pos h2]
      simp only [decide_eq_true_eq]
      constructor
      · intro hk
        exact ⟨fun he => h (by simp [he]), List.all_eq_true.mp h2, hk⟩
      · rintro ⟨-, -, hk⟩
        exact hk
    · rw [if_neg h2]
      simp only [Bool.false_eq_true, false_iff]
      rintro ⟨-, hall, -⟩
      exact h2 (List.all_eq_true.mpr hall)

theorem generateDayPlan_some_ok (target : ℤ) :
    ∀ (tiers : List (Option DayPlan)) (lastPlan : Option DayPlan) (p : DayPlan),
      generateDayPlan target tiers lastPlan = some p →
      planQualityOk p target = true := by
  intro tiers
  induction tiers with
  | nil =>
    intro lastPlan p h
    cases lastPlan with
    | none => simp [generateDayPlan] at h
    | some q =>
      simp only [generateDayPlan] at h
      by_cases hq : planQualityOk q target = true
      · rw [if_pos hq] at h
        cases h
        exact hq
      · rw [if_neg hq] at h
        cases h
  | cons a rest ih =>
    intro lastPlan p h
    cases a with
    | none => exact ih lastPlan p h
    | some q =>
      simp only [generateDayPlan] at h
      by_cases hq : planQualityOk q target = true
      · rw [if_pos hq] at h
        cases h
        exact hq
      · rw [if_neg hq] at h
        exact ih (some q) p h

theorem generateDayPlan_all_fail (target : ℤ) :
    ∀ (tiers : List (Option DayPlan)) (lastPlan : Option DayPlan),
      (∀ p, some p ∈ tiers → planQualityOk p target = false) →
      (∀ p, lastPlan = some p → planQualityOk p target = false) →
      generateDayPlan target tiers lastPlan = none := by
  intro tiers
  induction tiers with
  | nil =>
    intro lastPlan _ hlast
    cases lastPlan with
    | none => rfl
    | some q =>
      simp only [generateDayPlan]
      rw [if_neg (by rw [hlast q rfl]; exact Bool.false_ne_true)]
  | cons a rest ih =>
    intro lastPlan htiers hlast
    cases a with
    | none =>
      exact ih lastPlan (fun p hp => htiers p (List.mem_cons_of_mem _ hp)) hlast
    | some q =>
      have hq : planQualityOk q target = false := htiers q (List.mem_cons_self _ _)
      simp only [generateDayPlan]
      rw [if_neg (by rw [hq]; exact Bool.false_ne_true)]
      exact ih (some q) (fun p hp => htiers p (List.mem_cons_of_mem _ hp))
        (fun p hp => by cases hp; exact hq)

/-- C2: every day-plan the tier loop of the Plan Generation Engine
accepts satisfies the quality gate — at least one meal, every meal with
at least one product, every product with a non-empty name, positive grams
and no denylisted supplement keyword, and the total calories within 7%
of the day's target; and when every tier's output fails the gate, no
plan is produced (and hence none is persisted) for that day. -/
theorem C2_plan_quality_gate :
    (∀ (tiers : List (Option DayPlan)) (target : ℤ) (p : DayPlan),
        generateDayPlan target tiers none = some p →
        planQualityOk p target = true ∧
        p.meals ≠ [] ∧
        (∀ m ∈ p.meals, m.products ≠ [] ∧
          ∀ pr ∈ m.products, pyStrip pr.name ≠ "" ∧ 0 < pr.grams ∧
            ∀ b ∈ bannedKeywords, isSubstring b (pyLower (pyStrip pr.name)) = false) ∧
        |planTotalKcal p - (target : ℚ)| ≤ (target : ℚ) * (7 / 100)) ∧
    (∀ (tiers : List (Option DayPlan)) (target : ℤ),
        (∀ p, some p ∈ tiers → planQualityOk p target = false) →
        generateDayPlan target tiers none = none) := by
  constructor
  · intro tiers target p h
    have hok := generateDayPlan_some_ok target tiers none p h
    have hiff := (planQualityOk_iff p target).mp hok
    refine ⟨hok, hiff.1, ?_, hiff.2.2⟩
    intro m hm
    have hmok := (mealGateOk_iff m).mp (hiff.2.1 m hm)
    refine ⟨hmok.1, ?_⟩
    intro pr hpr
    exact (productGateOk_iff pr).mp (hmok.2 pr hpr)
  · intro tiers target htiers
    exact generateDayPlan_all_fail target tiers none htiers (by simp)

/-- A concrete plan passing the gate, for the C2 witness. -/
def demoPlan : DayPlan :=
  ⟨[⟨[⟨"Овсянка", 100, "Lidl"⟩], some 2000⟩], some 2000⟩

theorem demoPlan_quality : planQualityOk demoPlan 2000 = true := by
  rw [planQualityOk_iff]
  refine ⟨by simp [demoPlan], ?_, ?_⟩
  · intro m hm
    simp only [demoPlan, List.mem_singleton] at hm
    subst hm
    rw [mealGateOk_iff]
    refine ⟨by simp, ?_⟩
    intro pr hpr
    simp only [List.mem_singleton] at hpr
    subst hpr
    rw [productGateOk_iff]
    refine ⟨by decide, by norm_num, by decide⟩
  · simp only [demoPlan, planTotalKcal]
    norm_num

theorem C2_plan_quality_gate_witness :
    (generateDayPlan 2000 [some demoPlan] none = some demoPlan →
      planQualityOk demoPlan 2000 = true) ∧
    generateDayPlan 2000 [some demoPlan] none = some demoPlan ∧
    generateDayPlan 2000 [] none = none :=
  ⟨fun h => (C2_plan_quality_gate.1 [some demoPlan] 2000 demoPlan h).1,
   by simp only [generateDayPlan, demoPlan_quality, if_true],
   C2_plan_quality_gate.2 [] 2000 (by simp)⟩

/-! ## Claim C6 — conservation under aggregation -/

theorem sum_pyRound_close (l : List ℚ) :
    |(((l.map pyRound).sum : ℤ) : ℚ) - l.sum| ≤ (l.length : ℚ) / 2 := by
  induction l with
  | nil => simp
  | cons a t ih =>
    simp only [List.map_cons, List.sum_cons, List.length_cons]
    have h1 := pyRound_abs_le a
    have hsplit : (((pyRound a + (t.map pyRound).sum : ℤ) : ℚ)) - (a + t.sum)
        = ((pyRound a : ℚ) - a) + ((((t.map pyRound).sum : ℤ) : ℚ) - t.sum) := by
      push_cast
      ring
    rw [hsplit]
    calc |((pyRound a : ℚ) - a) + ((((t.map pyRound).sum : ℤ) : ℚ) - t.sum)|
        ≤ |(pyRound a : ℚ) - a| + |(((t.map pyRound).sum : ℤ) : ℚ) - t.sum| :=
          abs_add _ _
      _ ≤ 1 / 2 + (t.length : ℚ) / 2 := add_le_add h1 ih
      _ = ((t.length + 1 : ℕ) : ℚ) / 2 := by push_cast; ring

theorem pyRound_zero : pyRound 0 = 0 := by
  simpa using pyRound_intCast 0

theorem sum_round_vs_round_sum (l : List ℚ) :
    |(l.map pyRound).sum - pyRound l.sum| ≤ (l.length : ℤ) := by
  have key : |(((l.map pyRound).sum : ℤ) : ℚ) - ((pyRound l.sum : ℤ) : ℚ)| ≤ (l.length : ℚ) := by
    cases l with
    | nil => simp [pyRound_zero]
    | cons a t =>
      have h1 := sum_pyRound_close (a :: t)
      have h2 := pyRound_abs_le ((a :: t).sum)
      have hN : (1 : ℚ) ≤ ((a :: t).length : ℚ) := by
        have hn : (1 : ℕ) ≤ (a :: t).length := by simp
        exact_mod_cast hn
      have htri := abs_sub_le ((((a :: t).map pyRound).sum : ℤ) : ℚ) ((a :: t).sum)
        ((pyRound (a :: t).sum : ℤ) : ℚ)
      have h2s : |(a :: t).sum - ((pyRound (a :: t).sum : ℤ) : ℚ)| ≤ 1 / 2 := by
        rw [abs_sub_comm]
        exact h2
      calc |(((a :: t).map pyRound).sum : ℚ) - ((pyRound (a :: t).sum : ℤ) : ℚ)|
          ≤ |((((a :: t).map pyRound).sum : ℤ) : ℚ) - (a :: t).sum| +
            |(a :: t).sum - ((pyRound (a :: t).sum : ℤ) : ℚ)| := htri
        _ ≤ ((a :: t).length : ℚ) / 2 + 1 / 2 := add_le_add h1 h2s
        _ ≤ ((a :: t).length : ℚ) := by linarith
  exact_mod_cast key

/-- C6: for every list of resolved items, the draft totals conserve the
item data — the total weight equals the sum of the per-item grams exactly
(per-item grams are integers, `int(round(grams))` in
`compute_item_macros`), the sum of the rounded per-item calories differs
from the rounded total calories by at most the item count, and the
per-item macros are the linear scaling `per_100g * grams / 100` of the
accepted candidate. -/
theorem C6_totals_conservation :
    ∀ resolved : List ResolvedItem,
      (mkMealDraft resolved).totals.totalWeightG = (resolved.map fun r => r.grams).sum ∧
      |((mkMealDraft resolved).items.map fun it => it.calories).sum -
          (mkMealDraft resolved).totals.calories| ≤ (resolved.length : ℤ) ∧
      (∀ (grams : ℚ) (cand : FoodCandidate) (r : ResolvedItem),
        computeItemMacros grams cand = some r →
        ∃ k p f c, cand.kcal100g = some k ∧ cand.protein100g = some p ∧
          cand.fat100g = some f ∧ cand.carbs100g = some c ∧
          r.grams = pyRound grams ∧
          r.calories = k * (grams / 100) ∧ r.proteinG = p * (grams / 100) ∧
          r.fatG = f * (grams / 100) ∧ r.carbsG = c * (grams / 100)) := by
  intro resolved
  refine ⟨?_, ?_, ?_⟩
  · show pyRound ((resolved.map fun r => (r.grams : ℚ)).sum) = _
    have hcast : (resolved.map fun r => (r.grams : ℚ)).sum
        = (((resolved.map fun r => r.grams).sum : ℤ) : ℚ) := by
      induction resolved with
      | nil => simp
      | cons a t ih =>
        simp only [List.map_cons, List.sum_cons, ih]
        push_cast
        ring
    rw [hcast, pyRound_intCast]
  · have hmap : ((mkMealDraft resolved).items.map fun it => it.calories)
        = (resolved.map fun r => r.calories).map pyRound := by
      simp [mkMealDraft, draftItemOfResolved, List.map_map, Function.comp]
    have htot : (mkMealDraft resolved).totals.calories
        = pyRound ((resolved.map fun r => r.calories).sum) := rfl
    rw [hmap, htot]
    have h := sum_round_vs_round_sum (resolved.map fun r => r.calories)
    simpa using h
  · intro grams cand r h
    unfold computeItemMacros at h
    by_cases hg : grams ≤ 0
    · rw [if_pos hg] at h
      cases h
    · rw [if_neg hg] at h
      cases hk : cand.kcal100g with
      | none => rw [hk] at h; cases h
      | some k =>
        cases hp : cand.protein100g with
        | none => rw [hk, hp] at h; cases h
        | some p =>
          cases hf : cand.fat100g with
          | none => rw [hk, hp, hf] at h; cases h
          | some f =>
            cases hc : cand.carbs100g with
            | none => rw [hk, hp, hf, hc] at h; cases h
            | some c =>
              rw [hk, hp, hf, hc] at h
              simp only [Option.some.injEq] at h
              refine ⟨k, p, f, c, rfl, rfl, rfl, rfl, ?_, ?_, ?_, ?_, ?_⟩ <;>
                rw [← h]

/-- A concrete candidate with complete macros, for the C6 witness. -/
def demoCand : FoodCandidate :=
  ⟨some ("5903282300019"), "Skyr", none, some 60, some 11, some 0, some 4⟩

/-- The resolved item `compute_item_macros` produces from `demoCand` at
100 g, for the C6 witness. -/
def demoResolved : ResolvedItem :=
  ⟨"Skyr", none, some ("5903282300019"), 100, 60, 11, 0, 4, ⟨60, 11, 0, 4⟩⟩

theorem computeItemMacros_demo : computeItemMacros 100 demoCand = some demoResolved := by
  unfold computeItemMacros demoCand demoResolved
  rw [if_neg (by norm_num)]
  have h100 : pyRound (100 : ℚ) = 100 := by
    simpa using pyRound_intCast 100
  simp only [Option.some.injEq, ResolvedItem.mk.injEq, Per100.mk.injEq, h100]
  norm_num

theorem C6_totals_conservation_witness :
    (mkMealDraft [demoResolved]).totals.totalWeightG =
      ([demoResolved].map fun r => r.grams).sum ∧
    |((mkMealDraft [demoResolved]).items.map fun it => it.calories).sum -
        (mkMealDraft [demoResolved]).totals.calories| ≤ (([demoResolved] : List ResolvedItem).length : ℤ) ∧
    (∃ k p f c, demoCand.kcal100g = some k ∧ demoCand.protein100g = some p ∧
      demoCand.fat100g = some f ∧ demoCand.carbs100g = some c ∧
      demoResolved.grams = pyRound 100 ∧
      demoResolved.calories = k * (100 / 100) ∧ demoResolved.proteinG = p * (100 / 100) ∧
      demoResolved.fatG = f * (100 / 100) ∧ demoResolved.carbsG = c * (100 / 100)) :=
  have h := C6_totals_conservation [demoResolved]
  ⟨h.1, h.2.1, h.2.2 100 demoCand demoResolved computeItemMacros_demo⟩

/-! ## Claim C8 — custom targets never overwritten -/

theorem activeTargets_kcal (prefs : Prefs) (user : UserRec) (isWeekday : Bool) :
    (activeTargets prefs user isWeekday).kcal =
      activeKcal prefs.targets user isWeekday := by
  unfold activeTargets
  cases h : activeKcal prefs.targets user isWeekday with
  | none => simp [h]
  | some k =>
    simp only [h]
    split
    · rfl
    · rfl

/-- C8: on a weight update, when the preference `targets_source` is
`custom`, the handler merges only the BMR/TDEE/deficit metadata into
Preferences (the `targets` document and the source tag are untouched)
and re-derives the user-row snapshot from the active custom targets, so
a stored custom `calories` value (with no weekday/weekend override)
still yields that calorie target; when the source is not `custom`, the
snapshot and the `targets` preference are overwritten from the metric
recomputation. -/
theorem C8_custom_targets_preserved :
    ∀ (user : UserRec) (prefs : Prefs) (w : ℚ) (isWeekday : Bool),
      (weightUpdateSource prefs = "custom" →
        (setWeightUpdate user prefs w isWeekday).2 =
          { prefs with
            bmrKcal := some (computeTargetsWithMeta user.sex user.age user.heightCm w
              user.activity user.goal prefs.deficitPct).2.bmrKcal
            tdeeKcal := some (computeTargetsWithMeta user.sex user.age user.heightCm w
              user.activity user.goal prefs.deficitPct).2.tdeeKcal
            deficitPct := some (computeTargetsWithMeta user.sex user.age user.heightCm w
              user.activity user.goal prefs.deficitPct).2.deficitPct } ∧
        (∀ t c, prefs.targets = some t → t.caloriesWeekdays = none →
          t.caloriesWeekends = none → t.calories = some c →
          (setWeightUpdate user prefs w isWeekday).1.caloriesTarget = some c)) ∧
      (weightUpdateSource prefs ≠ "custom" →
        (setWeightUpdate user prefs w isWeekday).1.caloriesTarget =
          some (computeTargetsWithMeta user.sex user.age user.heightCm w
            user.activity user.goal prefs.deficitPct).1.calories ∧
        (setWeightUpdate user prefs w isWeekday).2.targets =
          some ⟨some (computeTargetsWithMeta user.sex user.age user.heightCm w
              user.activity user.goal prefs.deficitPct).1.calories, none, none,
            some (computeTargetsWithMeta user.sex user.age user.heightCm w
              user.activity user.goal prefs.deficitPct).1.proteinG,
            some (computeTargetsWithMeta user.sex user.age user.heightCm w
              user.activity user.goal prefs.deficitPct).1.fatG,
            some (computeTargetsWithMeta user.sex user.age user.heightCm w
              user.activity user.goal prefs.deficitPct).1.carbsG⟩) := by
  intro user prefs w isWeekday
  constructor
  · intro hcustom
    have hcond : ¬ (weightUpdateSource prefs ≠ "custom") := fun hne => hne hcustom
    constructor
    · simp only [setWeightUpdate]
      rw [if_neg hcond]
    · intro t c ht hwd hwe hc
      have hk : (activeTargets prefs { user with weightKg := w } isWeekday).kcal
          = some c := by
        rw [activeTargets_kcal]
        unfold activeKcal
        simp only [ht, hwd, hwe, hc]
        simp
      simp only [setWeightUpdate]
      rw [if_neg hcond]
      simp only [hk]
  · intro hnc
    constructor
    · simp only [setWeightUpdate]
      rw [if_pos hnc]
    · simp only [setWeightUpdate]
      rw [if_pos hnc]

/-- A preferences document with custom targets of 2800 kcal, for the C8
witness. -/
def demoPrefsCustom : Prefs :=
  ⟨some ("custom"), some ⟨some 2800, none, none, some 200, some 80, some 300⟩,
   none, none, none, none, none⟩

/-- A complete user profile, for the C8 witness. -/
def demoUser : UserRec :=
  ⟨.male, 30, 176, 90, .medium, .loss, some 2500, some 180, some 70, some 250⟩

theorem C8_custom_targets_preserved_witness :
    weightUpdateSource demoPrefsCustom = "custom" ∧
    (setWeightUpdate demoUser demoPrefsCustom 88 true).2 =
      { demoPrefsCustom with
        bmrKcal := some (computeTargetsWithMeta demoUser.sex demoUser.age
          demoUser.heightCm 88 demoUser.activity demoUser.goal
          demoPrefsCustom.deficitPct).2.bmrKcal
        tdeeKcal := some (computeTargetsWithMeta demoUser.sex demoUser.age
          demoUser.heightCm 88 demoUser.activity demoUser.goal
          demoPrefsCustom.deficitPct).2.tdeeKcal
        deficitPct := some (computeTargetsWithMeta demoUser.sex demoUser.age
          demoUser.heightCm 88 demoUser.activity demoUser.goal
          demoPrefsCustom.deficitPct).2.deficitPct } ∧
    (setWeightUpdate demoUser demoPrefsCustom 88 true).1.caloriesTarget = some 2800 :=
  have h := (C8_custom_targets_preserved demoUser demoPrefsCustom 88 true).1 (by decide)
  ⟨by decide, h.1, h.2 ⟨some 2800, none, none, some 200, some 80, some 300⟩ 2800 rfl rfl rfl rfl⟩

/-! ## Claim C3 — meal-resolution classification -/

theorem usable_mem_isSome {c : FoodCandidate} {l : List FoodCandidate}
    (h : c ∈ usableCandidates l) :
    c.kcal100g.isSome = true ∧ c.protein100g.isSome = true ∧
      c.fat100g.isSome = true ∧ c.carbs100g.isSome = true := by
  unfold usableCandidates at h
  have := List.of_mem_filter h
  simp only [Bool.and_eq_true] at this
  exact ⟨this.1.1.1, this.1.1.2, this.1.2, this.2⟩

theorem computeItemMacros_isSome {grams : ℚ} {cand : FoodCandidate}
    (hg : ¬ grams ≤ 0)
    (h : cand.kcal100g.isSome = true ∧ cand.protein100g.isSome = true ∧
      cand.fat100g.isSome = true ∧ cand.carbs100g.isSome = true) :
    ∃ r, computeItemMacros grams cand = some r := by
  obtain ⟨k, hk⟩ := Option.isSome_iff_exists.mp h.1
  obtain ⟨p, hp⟩ := Option.isSome_iff_exists.mp h.2.1
  obtain ⟨f, hf⟩ := Option.isSome_iff_exists.mp h.2.2.1
  obtain ⟨c, hc⟩ := Option.isSome_iff_exists.mp h.2.2.2
  exact ⟨{ name := cand.name, brand := cand.brand, barcode := cand.barcode,
           grams := pyRound grams, calories := k * (grams / 100),
           proteinG := p * (grams / 100), fatG := f * (grams / 100),
           carbsG := c * (grams / 100), per100g := ⟨k, p, f, c⟩ },
         by unfold computeItemMacros; rw [if_neg hg, hk, hp, hf, hc]⟩

theorem resolveItem_dropped_iff (oracle : FoodOracle) (it : InputItem) :
    resolveItem oracle it = .dropped ↔
      (pyStrip it.query = "" ∨ it.grams ≤ 0) := by
  unfold resolveItem
  by_cases h : pyStrip it.query = "" ∨ it.grams ≤ 0
  · simp [h]
  · rw [if_neg h]
    refine iff_of_false ?_ h
    cases hbc : (effectiveBarcode it).bind oracle.byBarcode with
    | some cand =>
      cases hm : computeItemMacros it.grams cand <;> simp [hm]
    | none =>
      cases hu : usableCandidates (oracle.search (pyStrip it.query)) with
      | nil => simp
      | cons c rest =>
        cases rest with
        | nil => cases hm : computeItemMacros it.grams c <;> simp [hm]
        | cons d rest2 => simp

theorem resolveItem_unique (oracle : FoodOracle) (it : InputItem) (c : FoodCandidate)
    (h1 : ¬(pyStrip it.query = "" ∨ it.grams ≤ 0))
    (h2 : (effectiveBarcode it).bind oracle.byBarcode = none)
    (h3 : usableCandidates (oracle.search (pyStrip it.query)) = [c]) :
    ∃ r, resolveItem oracle it = .accepted r ∧
      computeItemMacros it.grams c = some r := by
  have hg : ¬ it.grams ≤ 0 := fun hle => h1 (Or.inr hle)
  have hmem : c ∈ usableCandidates (oracle.search (pyStrip it.query)) := by
    rw [h3]
    exact List.mem_singleton_self c
  obtain ⟨r, hr⟩ := computeItemMacros_isSome hg (usable_mem_isSome hmem)
  refine ⟨r, ?_, hr⟩
  unfold resolveItem
  rw [if_neg h1]
  simp only [h2, h3, hr]

theorem resolveItem_ambiguous (oracle : FoodOracle) (it : InputItem)
    (h1 : ¬(pyStrip it.query = "" ∨ it.grams ≤ 0))
    (h2 : (effectiveBarcode it).bind oracle.byBarcode = none)
    (h3 : (usableCandidates (oracle.search (pyStrip it.query))).length ≠ 1) :
    resolveItem oracle it = .unresolvedItem
      ⟨pyStrip it.query, it.grams,
        (usableCandidates (oracle.search (pyStrip it.query))).take 5⟩ := by
  unfold resolveItem
  rw [if_neg h1]
  simp only [h2]
  cases hu : usableCandidates (oracle.search (pyStrip it.query)) with
  | nil => simp
  | cons c rest =>
    cases rest with
    | nil => exact absurd (by rw [hu]; rfl) h3
    | cons d rest2 => simp

theorem resolveItemsAux_characterization (oracle : FoodOracle) (items : List InputItem) :
    ((buildMealFromItems oracle items).1.isSome ↔
      (resolveItemsAux oracle items [] []).2 = []) ∧
    (∀ draft, (buildMealFromItems oracle items).1 = some draft →
      (buildMealFromItems oracle items).2 = none ∧
      draft = mkMealDraft (resolveItemsAux oracle items [] []).1) ∧
    ((resolveItemsAux oracle items [] []).2 ≠ [] →
      buildMealFromItems oracle items =
        (none, some ⟨(resolveItemsAux oracle items [] []).2,
                     (resolveItemsAux oracle items [] []).1⟩)) := by
  unfold buildMealFromItems
  by_cases h : (resolveItemsAux oracle items [] []).2.isEmpty
  · have he : (resolveItemsAux oracle items [] []).2 = [] := List.isEmpty_iff.mp h
    rw [if_pos h]
    refine ⟨by simp [he], ?_, by simp [he]⟩
    intro draft hd
    simp only [Option.some.injEq] at hd
    exact ⟨rfl, hd.symm⟩
  · have hne : (resolveItemsAux oracle items [] []).2 ≠ [] := by
      intro he
      exact h (by simp [he])
    rw [if_neg h]
    refine ⟨by simp [hne], ?_, fun _ => rfl⟩
    intro draft hd
    cases hd

/-- C3: per-item classification of the meal-resolution pipeline — an
item with an empty (stripped) query or non-positive grams is dropped
(and exactly those are); with no successful direct barcode resolution,
exactly one usable free-text candidate is accepted automatically, while
zero or several usable candidates leave the item unresolved with its
query, grams and at most 5 recorded candidates; and the pipeline returns
a finished draft exactly when no item is unresolved, otherwise no draft
and the full resolved/unresolved context. -/
theorem C3_meal_resolution_pipeline :
    (∀ (oracle : FoodOracle) (it : InputItem),
        resolveItem oracle it = .dropped ↔
          (pyStrip it.query = "" ∨ it.grams ≤ 0)) ∧
    (∀ (oracle : FoodOracle) (it : InputItem) (c : FoodCandidate),
        ¬(pyStrip it.query = "" ∨ it.grams ≤ 0) →
        (effectiveBarcode it).bind oracle.byBarcode = none →
        usableCandidates (oracle.search (pyStrip it.query)) = [c] →
        ∃ r, resolveItem oracle it = .accepted r ∧
          computeItemMacros it.grams c = some r) ∧
    (∀ (oracle : FoodOracle) (it : InputItem),
        ¬(pyStrip it.query = "" ∨ it.grams ≤ 0) →
        (effectiveBarcode it).bind oracle.byBarcode = none →
        (usableCandidates (oracle.search (pyStrip it.query))).length ≠ 1 →
        resolveItem oracle it = .unresolvedItem
          ⟨pyStrip it.query, it.grams,
            (usableCandidates (oracle.search (pyStrip it.query))).take 5⟩ ∧
        ((usableCandidates (oracle.search (pyStrip it.query))).take 5).length ≤ 5) ∧
    (∀ (oracle : FoodOracle) (items : List InputItem),
        ((buildMealFromItems oracle items).1.isSome ↔
          (resolveItemsAux oracle items [] []).2 = []) ∧
        (∀ draft, (buildMealFromItems oracle items).1 = some draft →
          (buildMealFromItems oracle items).2 = none ∧
          draft = mkMealDraft (resolveItemsAux oracle items [] []).1) ∧
        ((resolveItemsAux oracle items [] []).2 ≠ [] →
          buildMealFromItems oracle items =
            (none, some ⟨(resolveItemsAux oracle items [] []).2,
                         (resolveItemsAux oracle items [] []).1⟩))) := by
  refine ⟨resolveItem_dropped_iff, resolveItem_unique, ?_, resolveItemsAux_characterization⟩
  intro oracle it h1 h2 h3
  refine ⟨resolveItem_ambiguous oracle it h1 h2 h3, ?_⟩
  calc ((usableCandidates (oracle.search (pyStrip it.query))).take 5).length
      ≤ 5 := by
        rw [List.length_take]
        exact min_le_left _ _

/-- A concrete oracle for the C3 witness: one barcode and one searchable
product with complete macros. -/
def demoOracle : FoodOracle :=
  { byBarcode := fun bc => if bc = "5903282300019" then some demoCand else none
    search := fun q => if q = "skyr" then [demoCand] else [] }

theorem C3_meal_resolution_pipeline_witness :
    (resolveItem demoOracle ⟨"", 100, none⟩ = .dropped ↔
      (pyStrip "" = "" ∨ (100 : ℚ) ≤ 0)) ∧
    (∃ r, resolveItem demoOracle ⟨"skyr", 100, none⟩ = .accepted r ∧
      computeItemMacros 100 demoCand = some r) ∧
    (resolveItem demoOracle ⟨"tvaroh", 50, none⟩ = .unresolvedItem
      ⟨pyStrip "tvaroh", 50,
        (usableCandidates (demoOracle.search (pyStrip "tvaroh"))).take 5⟩ ∧
      ((usableCandidates (demoOracle.search (pyStrip "tvaroh"))).take 5).length ≤ 5) ∧
    ((buildMealFromItems demoOracle []).1.isSome ↔
      (resolveItemsAux demoOracle [] [] []).2 = []) :=
  ⟨C3_meal_resolution_pipeline.1 demoOracle ⟨"", 100, none⟩,
   (by
      have h := C3_meal_resolution_pipeline.2.1 demoOracle ⟨"skyr", 100, none⟩ demoCand
        (by decide) rfl (by decide)
      simpa using h),
   (by
      have h := C3_meal_resolution_pipeline.2.2.1 demoOracle ⟨"tvaroh", 50, none⟩
        (by decide) rfl (by decide)
      simpa using h),
   (C3_meal_resolution_pipeline.2.2.2 demoOracle []).1⟩

/-! ## Claims C5 and C10 — food-pick disambiguation flow -/

theorem continueWithChosen_advanced {oracle : FoodOracle} {st : PickState}
    {chosen : FoodCandidate} {st2 : PickState}
    (h : continueWithChosen oracle st chosen = .advanced st2) :
    ∃ bc cand r, chosen.barcode = some bc ∧ bc ≠ "" ∧
      oracle.byBarcode bc = some cand ∧
      computeItemMacros (st.unresolved.getD st.idx defaultUnresolved).grams cand = some r ∧
      st2 = { st with resolved := st.resolved ++ [r], idx := st.idx + 1 } ∧
      st.idx + 1 < st.unresolved.length := by
  unfold continueWithChosen at h
  cases hb : chosen.barcode with
  | none => rw [hb] at h; cases h
  | some bc =>
    rw [hb] at h
    dsimp only at h
    by_cases hbe : bc = ""
    · rw [if_pos hbe] at h; cases h
    · rw [if_neg hbe] at h
      cases hres : oracle.byBarcode bc with
      | none => rw [hres] at h; cases h
      | some cand =>
        rw [hres] at h
        dsimp only at h
        cases hm : computeItemMacros (st.unresolved.getD st.idx defaultUnresolved).grams cand with
        | none => rw [hm] at h; cases h
        | some r =>
          rw [hm] at h
          dsimp only at h
          by_cases hidx : st.idx + 1 < st.unresolved.length
          · rw [if_pos hidx] at h
            injection h with h2
            exact ⟨bc, cand, r, rfl, hbe, hres, hm, h2.symm, hidx⟩
          · rw [if_neg hidx] at h
            cases h

theorem continueWithChosen_finished {oracle : FoodOracle} {st : PickState}
    {chosen : FoodCandidate} {d : Draft} {src : String} {ph : Option String}
    (h : continueWithChosen oracle st chosen = .finished d src ph) :
    ∃ bc cand r, chosen.barcode = some bc ∧ bc ≠ "" ∧
      oracle.byBarcode bc = some cand ∧
      computeItemMacros (st.unresolved.getD st.idx defaultUnresolved).grams cand = some r ∧
      d = mkMealDraft (st.resolved ++ [r]) ∧
      st.unresolved.length ≤ st.idx + 1 := by
  unfold continueWithChosen at h
  cases hb : chosen.barcode with
  | none => rw [hb] at h; cases h
  | some bc =>
    rw [hb] at h
    dsimp only at h
    by_cases hbe : bc = ""
    · rw [if_pos hbe] at h; cases h
    · rw [if_neg hbe] at h
      cases hres : oracle.byBarcode bc with
      | none => rw [hres] at h; cases h
      | some cand =>
        rw [hres] at h
        dsimp only at h
        cases hm : computeItemMacros (st.unresolved.getD st.idx defaultUnresolved).grams cand with
        | none => rw [hm] at h; cases h
        | some r =>
          rw [hm] at h
          dsimp only at h
          by_cases hidx : st.idx + 1 < st.unresolved.length
          · rw [if_pos hidx] at h
            cases h
          · rw [if_neg hidx] at h
            injection h with h1 h2 h3
            exact ⟨bc, cand, r, rfl, hbe, hres, hm, h1.symm, le_of_not_lt hidx⟩

/-- Every non-escape, in-range `_handle_food_pick` call that makes
progress does so through `continueWithChosen` on some candidate. -/
theorem handleFoodPick_progress_via_chosen {oracle : FoodOracle} {st : PickState}
    {text : String} {res : PickResult}
    (h : handleFoodPick oracle st text = res)
    (hprog : (∃ st2, res = .advanced st2) ∨ ∃ d s p, res = .finished d s p) :
    st.idx < st.unresolved.length ∧
      ∃ chosen, continueWithChosen oracle st chosen = res := by
  unfold handleFoodPick at h
  by_cases h1 : foodPickEscapeTokens.contains (pyStrip text) = true
  · rw [if_pos h1] at h
    subst h
    rcases hprog with ⟨st2, h2⟩ | ⟨d, s, p, h2⟩ <;> cases h2
  · rw [if_neg h1] at h
    by_cases h2 : st.unresolved.length ≤ st.idx
    · rw [if_pos h2] at h
      subst h
      rcases hprog with ⟨st2, hh⟩ | ⟨d, s, p, hh⟩ <;> cases hh
    · rw [if_neg h2] at h
      dsimp only at h
      refine ⟨lt_of_not_le h2, ?_⟩
      cases hbc : maybeBarcode (pyStrip text) with
      | some bc =>
        rw [hbc] at h
        dsimp only at h
        cases hres : oracle.byBarcode bc with
        | none =>
          rw [hres] at h
          subst h
          rcases hprog with ⟨st2, hh⟩ | ⟨d, s, p, hh⟩ <;> cases hh
        | some cand =>
          rw [hres] at h
          exact ⟨cand, h⟩
      | none =>
        rw [hbc] at h
        dsimp only at h
        by_cases hd : pyIsDigit (pyStrip text) = true
        · rw [if_pos hd] at h
          by_cases hrange : 1 ≤ digitsToNat (pyStrip text) ∧
              digitsToNat (pyStrip text) ≤
                (st.unresolved.getD st.idx defaultUnresolved).candidates.length
          · rw [if_pos hrange] at h
            exact ⟨_, h⟩
          · rw [if_neg hrange] at h
            subst h
            rcases hprog with ⟨st2, hh⟩ | ⟨d, s, p, hh⟩ <;> cases hh
        · rw [if_neg hd] at h
          subst h
          rcases hprog with ⟨st2, hh⟩ | ⟨d, s, p, hh⟩ <;> cases hh

theorem handleFoodPick_advanced {oracle : FoodOracle} {st : PickState}
    {text : String} {st2 : PickState}
    (h : handleFoodPick oracle st text = .advanced st2) :
    st.idx < st.unresolved.length ∧ st2.idx = st.idx + 1 ∧
      st2.unresolved = st.unresolved ∧ st2.idx < st.unresolved.length := by
  obtain ⟨hlt, chosen, hcc⟩ := handleFoodPick_progress_via_chosen h
    (Or.inl ⟨st2, rfl⟩)
  obtain ⟨bc, cand, r, -, -, -, -, hst2, hidx⟩ := continueWithChosen_advanced hcc
  subst hst2
  exact ⟨hlt, rfl, rfl, hidx⟩

theorem handleFoodPick_finished {oracle : FoodOracle} {st : PickState}
    {text : String} {d : Draft} {src : String} {ph : Option String}
    (h : handleFoodPick oracle st text = .finished d src ph) :
    st.idx < st.unresolved.length ∧ st.unresolved.length = st.idx + 1 := by
  obtain ⟨hlt, chosen, hcc⟩ := handleFoodPick_progress_via_chosen h
    (Or.inr ⟨d, src, ph, rfl⟩)
  obtain ⟨bc, cand, r, -, -, -, -, -, hle⟩ := continueWithChosen_finished hcc
  exact ⟨hlt, le_antisymm hle hlt⟩

theorem pickStepValid_cases {oracle : FoodOracle} {st : PickState} {r : String}
    {x : PickState ⊕ Draft} (h : pickStepValid oracle st r = some x) :
    (∃ st2, x = .inl st2 ∧ st2.idx = st.idx + 1 ∧ st2.unresolved = st.unresolved ∧
      st2.idx < st.unresolved.length) ∨
    (∃ d, x = .inr d ∧ st.unresolved.length = st.idx + 1) := by
  unfold pickStepValid at h
  cases hh : handleFoodPick oracle st r with
  | cancelled => rw [hh] at h; cases h
  | notHandled => rw [hh] at h; cases h
  | reprompt m => rw [hh] at h; cases h
  | advanced st2 =>
    rw [hh] at h
    dsimp only at h
    injection h with h
    obtain ⟨-, h2, h3, h4⟩ := handleFoodPick_advanced hh
    exact Or.inl ⟨st2, h.symm, h2, h3, h4⟩
  | finished d s p =>
    rw [hh] at h
    dsimp only at h
    injection h with h
    obtain ⟨-, h2⟩ := handleFoodPick_finished hh
    exact Or.inr ⟨d, h.symm, h2⟩

theorem runPickValid_progress (oracle : FoodOracle) :
    ∀ (replies : List String) (st : PickState) (res : PickState ⊕ Draft),
      runPickValid oracle st replies = some res →
      st.idx ≤ st.unresolved.length →
      (replies.length + st.idx ≤ st.unresolved.length) ∧
      (replies.length + st.idx < st.unresolved.length →
        ∃ st2, res = .inl st2 ∧ st2.idx = st.idx + replies.length ∧
          st2.unresolved = st.unresolved) ∧
      (replies ≠ [] → replies.length + st.idx = st.unresolved.length →
        ∃ d, res = .inr d) := by
  intro replies
  induction replies with
  | nil =>
    intro st res h hle
    simp only [runPickValid] at h
    injection h with h
    subst h
    refine ⟨by simpa using hle, ?_, ?_⟩
    · intro _
      exact ⟨st, rfl, by simp, rfl⟩
    · intro hne
      exact absurd rfl hne
  | cons r rs ih =>
    intro st res h hle
    simp only [runPickValid] at h
    cases hs : pickStepValid oracle st r with
    | none => rw [hs] at h; cases h
    | some x =>
      rw [hs] at h
      rcases pickStepValid_cases hs with ⟨st2, hx, hidx, hunres, hlt⟩ | ⟨d, hx, hlen⟩
      · subst hx
        have hle2 : st2.idx ≤ st2.unresolved.length := by
          rw [hunres]
          exact le_of_lt hlt
        obtain ⟨hA, hB, hC⟩ := ih st2 res h hle2
        rw [hunres] at hA hB hC
        refine ⟨by simp only [List.length_cons]; omega, ?_, ?_⟩
        · intro hlt2
          obtain ⟨st3, h3, h4, h5⟩ := hB (by simp only [List.length_cons] at hlt2; omega)
          exact ⟨st3, h3, by simp only [List.length_cons]; omega, h5⟩
        · intro _ hlen2
          refine hC ?_ ?_
          · intro he
            subst he
            simp only [List.length_cons, List.length_nil] at hlen2
            omega
          · simp only [List.length_cons] at hlen2
            omega
      · subst hx
        dsimp only at h
        by_cases he : rs.isEmpty
        · rw [if_pos he] at h
          injection h with h
          subst h
          have hrs : rs = [] := List.isEmpty_iff.mp he
          subst hrs
          refine ⟨by simp only [List.length_cons, List.length_nil]; omega, ?_, ?_⟩
          · intro hlt2
            simp only [List.length_cons, List.length_nil] at hlt2
            omega
          · intro _ _
            exact ⟨d, rfl⟩
        · rw [if_neg he] at h
          cases h

/-- C5: entering the food-pick sub-flow at index 0 with N unresolved
items, a run of valid disambiguation answers finishes with a draft
exactly when it has length N — fewer than N valid answers leave the flow
still in progress at index equal to the number of answers given (no
draft), and no valid run can be longer than N. -/
theorem C5_disambiguation_termination :
    ∀ (oracle : FoodOracle) (st : PickState) (replies : List String)
      (res : PickState ⊕ Draft),
      st.idx = 0 →
      runPickValid oracle st replies = some res →
      (replies.length = st.unresolved.length → 0 < st.unresolved.length →
        ∃ d, res = .inr d) ∧
      (replies.length < st.unresolved.length →
        ∃ st2, res = .inl st2 ∧ st2.idx = replies.length ∧
          st2.unresolved = st.unresolved) ∧
      replies.length ≤ st.unresolved.length := by
  intro oracle st replies res hidx h
  have h0 : st.idx ≤ st.unresolved.length := by
    rw [hidx]
    exact Nat.zero_le _
  obtain ⟨hA, hB, hC⟩ := runPickValid_progress oracle replies st res h h0
  rw [hidx] at hA hB
  refine ⟨?_, ?_, by omega⟩
  · intro hlen hpos
    refine hC ?_ (by omega)
    intro he
    subst he
    simp only [List.length_nil] at hlen
    omega
  · intro hlt
    obtain ⟨st2, h1, h2, h3⟩ := hB (by omega)
    exact ⟨st2, h1, by omega, h3⟩

/-- A food-pick state with one unresolved item, for the C5 witness. -/
def demoPickState : PickState := ⟨[⟨"skyr", 100, []⟩], [], 0, "text", none⟩

theorem handleFoodPick_demo :
    handleFoodPick demoOracle demoPickState ("5903282300019") =
      .finished (mkMealDraft [demoResolved]) ("text") none := by
  have hesc : ¬ foodPickEscapeTokens.contains (pyStrip ("5903282300019")) = true := by decide
  have hlen : ¬ demoPickState.unresolved.length ≤ demoPickState.idx := by decide
  have hmb : maybeBarcode (pyStrip ("5903282300019")) = some ("5903282300019") := by decide
  have hbb : demoOracle.byBarcode ("5903282300019") = some demoCand := rfl
  have hbc : demoCand.barcode = some ("5903282300019") := rfl
  have hgr : (demoPickState.unresolved.getD demoPickState.idx defaultUnresolved).grams
      = (100 : ℚ) := rfl
  have hnlt : ¬ demoPickState.idx + 1 < demoPickState.unresolved.length := by decide
  unfold handleFoodPick
  rw [if_neg hesc, if_neg hlen]
  dsimp only
  rw [hmb]
  dsimp only
  rw [hbb]
  dsimp only
  unfold continueWithChosen
  rw [hbc]
  dsimp only
  rw [if_neg (by decide : ¬ ("5903282300019" : String) = "")]
  rw [hbb]
  dsimp only
  rw [hgr, computeItemMacros_demo]
  dsimp only
  rw [if_neg hnlt]
  rfl

theorem runPickValid_demo :
    runPickValid demoOracle demoPickState [("5903282300019")] =
      some (.inr (mkMealDraft [demoResolved])) := by
  simp only [runPickValid, pickStepValid, handleFoodPick_demo]
  rfl

theorem C5_disambiguation_termination_witness :
    demoPickState.idx = 0 ∧
    runPickValid demoOracle demoPickState [("5903282300019")] =
      some (.inr (mkMealDraft [demoResolved])) ∧
    (∃ d, (Sum.inr (mkMealDraft [demoResolved]) : PickState ⊕ Draft) = .inr d) ∧
    ([("5903282300019")] : List String).length ≤ demoPickState.unresolved.length :=
  have hrun := runPickValid_demo
  have h := C5_disambiguation_termination demoOracle demoPickState
    [("5903282300019")] (.inr (mkMealDraft [demoResolved])) rfl hrun
  ⟨rfl, hrun, h.1 (by decide) (by decide), h.2.2⟩

/-! ## Claim C10 — food-pick error paths only re-prompt -/

/-- C10: in the food-pick flow (non-escape reply, index in range), a
typed barcode the oracle cannot resolve, a numeral outside the candidate
range or a non-numeral, a selected candidate without a barcode, a
candidate whose barcode fails re-resolution, or a re-resolved product
with incomplete per-100g macros all yield a re-prompt — which performs
no dialog write at all — and the flow advances or finishes exclusively
through a candidate successfully re-resolved by barcode whose macros are
complete. -/
theorem C10_food_pick_error_reprompt :
    ∀ (oracle : FoodOracle) (st : PickState) (text : String),
      foodPickEscapeTokens.contains (pyStrip text) = false →
      st.idx < st.unresolved.length →
      ((∀ bc, maybeBarcode (pyStrip text) = some bc → oracle.byBarcode bc = none →
          handleFoodPick oracle st text = .reprompt .barcodeNotFound) ∧
       (maybeBarcode (pyStrip text) = none →
          (pyIsDigit (pyStrip text) = false ∨
           ¬(1 ≤ digitsToNat (pyStrip text) ∧ digitsToNat (pyStrip text) ≤
              (st.unresolved.getD st.idx defaultUnresolved).candidates.length)) →
          handleFoodPick oracle st text = .reprompt .askDigitOrBarcode) ∧
       (∀ chosen : FoodCandidate, chosen.barcode = none →
          continueWithChosen oracle st chosen = .reprompt .cannotFixChosen) ∧
       (∀ (chosen : FoodCandidate) (bc : String), chosen.barcode = some bc → bc ≠ "" →
          oracle.byBarcode bc = none →
          continueWithChosen oracle st chosen = .reprompt .cannotFixChosen) ∧
       (∀ (chosen : FoodCandidate) (bc : String) (cand : FoodCandidate),
          chosen.barcode = some bc → bc ≠ "" →
          oracle.byBarcode bc = some cand →
          computeItemMacros (st.unresolved.getD st.idx defaultUnresolved).grams cand = none →
          continueWithChosen oracle st chosen = .reprompt .incompleteNutrients) ∧
       (∀ (m : PickMsg) (d : Dialog), pickResultDialog d (.reprompt m) = d) ∧
       (∀ st2, handleFoodPick oracle st text = .advanced st2 →
          ∃ bc cand r, oracle.byBarcode bc = some cand ∧
            computeItemMacros (st.unresolved.getD st.idx defaultUnresolved).grams cand = some r ∧
            st2 = { st with resolved := st.resolved ++ [r], idx := st.idx + 1 }) ∧
       (∀ d s p, handleFoodPick oracle st text = .finished d s p →
          ∃ bc cand r, oracle.byBarcode bc = some cand ∧
            computeItemMacros (st.unresolved.getD st.idx defaultUnresolved).grams cand = some r ∧
            d = mkMealDraft (st.resolved ++ [r]))) := by
  intro oracle st text hesc hidx
  have hesc2 : ¬ foodPickEscapeTokens.contains (pyStrip text) = true := by
    rw [hesc]
    exact Bool.false_ne_true
  have hlen : ¬ st.unresolved.length ≤ st.idx := not_le.mpr hidx
  refine ⟨?_, ?_, ?_, ?_, ?_, fun _ _ => rfl, ?_, ?_⟩
  · intro bc hmb hnone
    unfold handleFoodPick
    rw [if_neg hesc2, if_neg hlen]
    dsimp only
    rw [hmb]
    dsimp only
    rw [hnone]
  · intro hmb hbad
    unfold handleFoodPick
    rw [if_neg hesc2, if_neg hlen]
    dsimp only
    rw [hmb]
    dsimp only
    rcases hbad with hd | hrange
    · rw [if_neg (by rw [hd]; exact Bool.false_ne_true)]
    · by_cases hd : pyIsDigit (pyStrip text) = true
      · rw [if_pos hd, if_neg hrange]
      · rw [if_neg hd]
  · intro chosen hb
    unfold continueWithChosen
    rw [hb]
  · intro chosen bc hb hbe hnone
    unfold continueWithChosen
    rw [hb]
    dsimp only
    rw [if_neg hbe, hnone]
  · intro chosen bc cand hb hbe hres hm
    unfold continueWithChosen
    rw [hb]
    dsimp only
    rw [if_neg hbe, hres]
    dsimp only
    rw [hm]
  · intro st2 h
    obtain ⟨-, chosen, hcc⟩ := handleFoodPick_progress_via_chosen h (Or.inl ⟨st2, rfl⟩)
    obtain ⟨bc, cand, r, -, -, hres, hm, hst2, -⟩ := continueWithChosen_advanced hcc
    exact ⟨bc, cand, r, hres, hm, hst2⟩
  · intro d s p h
    obtain ⟨-, chosen, hcc⟩ := handleFoodPick_progress_via_chosen h (Or.inr ⟨d, s, p, rfl⟩)
    obtain ⟨bc, cand, r, -, -, hres, hm, hd, -⟩ := continueWithChosen_finished hcc
    exact ⟨bc, cand, r, hres, hm, hd⟩

/-- A food-pick state whose single unresolved item lists one candidate
without a barcode, for the C10 witness. -/
def demoPickStateNoBc : PickState :=
  ⟨[⟨"skyr", 100, [⟨none, "Skyr bez kódu", none, some 60, some 11, some 0, some 4⟩]⟩],
   [], 0, "text", none⟩

theorem C10_food_pick_error_reprompt_witness :
    handleFoodPick demoOracle demoPickStateNoBc ("87654321") =
      .reprompt .barcodeNotFound ∧
    handleFoodPick demoOracle demoPickStateNoBc ("7") =
      .reprompt .askDigitOrBarcode ∧
    continueWithChosen demoOracle demoPickStateNoBc
      ⟨none, "Skyr bez kódu", none, some 60, some 11, some 0, some 4⟩ =
      .reprompt .cannotFixChosen ∧
    pickResultDialog idleDialog (.reprompt .cannotFixChosen) = idleDialog :=
  have h := C10_food_pick_error_reprompt demoOracle demoPickStateNoBc ("87654321")
    (by decide) (by decide)
  have h7 := C10_food_pick_error_reprompt demoOracle demoPickStateNoBc ("7")
    (by decide) (by decide)
  ⟨h.1 ("87654321") (by decide) rfl,
   h7.2.1 (by decide) (Or.inr (by decide)),
   h.2.2.1 ⟨none, "Skyr bez kódu", none, some 60, some 11, some 0, some 4⟩ rfl,
   (h.2.2.2.2.2.1 .cannotFixChosen idleDialog)⟩

end Botfit
